import Mathlib

/-!
# Propel Terraform provider: Data Source and Data Pool resources

A shallow embedding of `propel/resource_data_pool.go` and
`propel/resource_data_source.go`.

* Go `interface{}` configuration values are the type `Value`; a failed type
  assertion, a nil dereference or an index out of range (a Go panic) is `none`.
* The remote GraphQL client is an oracle `Client`: every operation receives the
  number of remote calls issued so far (a logical clock) and its input, and
  returns a response or an error text.  Every call that is issued is appended to
  a log of `RemoteCall`s.
* `*schema.ResourceData` is the record `ResourceData`, passed explicitly.
* `time.Duration` is an `Int` number of nanoseconds.
-/

namespace Propel

/-! ## Go strings -/

/-- Whether the characters `p` open the character list given first. -/
def startsWith : List Char → List Char → Bool
  | _, [] => true
  | [], _ :: _ => false
  | c :: cs, p :: ps => c == p && startsWith cs ps

/-- Whether `p` occurs as a contiguous block of the character list given first. -/
def containsChars : List Char → List Char → Bool
  | [], p => p.isEmpty
  | c :: cs, p => startsWith (c :: cs) p || containsChars cs p

/-- Go `strings.Contains(s, substr)`. -/
def Contains (s substr : String) : Bool :=
  containsChars s.data substr.data

/-- The ASCII branch of Go `strings.ToUpper`: `a`..`z` are shifted to `A`..`Z`. -/
def asciiUpper (c : Char) : Char :=
  if 97 ≤ c.toNat ∧ c.toNat ≤ 122 then Char.ofNat (c.toNat - 32) else c

/-! ## Dynamically typed configuration values -/

/-- Go `interface{}` values as they come out of `d.Get`: `nil`, strings, booleans,
`[]interface{}` and `map[string]interface{}`. -/
inductive Value where
  | null : Value
  | str (s : String) : Value
  | bool (b : Bool) : Value
  | list (xs : List Value) : Value
  | map (kvs : List (String × Value)) : Value

/-- Type assertion `v.(string)`; `none` is the panic. -/
def Value.asString : Value → Option String
  | .str s => some s
  | _ => none

/-- Type assertion `v.(bool)`; `none` is the panic. -/
def Value.asBool : Value → Option Bool
  | .bool b => some b
  | _ => none

/-- Type assertion `v.([]interface{})`; `none` is the panic. -/
def Value.asList : Value → Option (List Value)
  | .list xs => some xs
  | _ => none

/-- Type assertion `v.(map[string]interface{})`; `none` is the panic. -/
def Value.asMap : Value → Option (List (String × Value))
  | .map kvs => some kvs
  | _ => none

/-- Comparison `v != nil` on an interface value. -/
def Value.notNil : Value → Bool
  | .null => false
  | _ => true

/-- Go map indexing `m[key]`: the stored value, or `nil` when the key is missing. -/
def mapIndex (m : List (String × Value)) (key : String) : Value :=
  (m.lookup key).getD Value.null

/-- Go two-valued map indexing `v, ok := m[key]`: whether the key is present. -/
def mapHasKey (m : List (String × Value)) (key : String) : Bool :=
  (m.lookup key).isSome

/-! ## Types of the generated GraphQL client (`propel_client`) -/

/-- Modelled from the spec: the generated client's `ColumnType` enum (package
`propel_client`, absent from the sources) is a string type whose zero value is
the empty string. -/
abbrev ColumnType := String

/-- The zero value of `ColumnType` (`var columnType pc.ColumnType`). -/
def ColumnTypeZero : ColumnType := ""

/-- Modelled from the spec: the constant `pc.ColumnTypeBoolean` (absent from the
sources), the remote value named like the literal. -/
def ColumnTypeBoolean : ColumnType := "BOOLEAN"
/-- Modelled from the spec: the constant `pc.ColumnTypeDate`. -/
def ColumnTypeDate : ColumnType := "DATE"
/-- Modelled from the spec: the constant `pc.ColumnTypeDouble`. -/
def ColumnTypeDouble : ColumnType := "DOUBLE"
/-- Modelled from the spec: the constant `pc.ColumnTypeInt8`. -/
def ColumnTypeInt8 : ColumnType := "INT8"
/-- Modelled from the spec: the constant `pc.ColumnTypeInt16`. -/
def ColumnTypeInt16 : ColumnType := "INT16"
/-- Modelled from the spec: the constant `pc.ColumnTypeInt32`. -/
def ColumnTypeInt32 : ColumnType := "INT32"
/-- Modelled from the spec: the constant `pc.ColumnTypeInt64`. -/
def ColumnTypeInt64 : ColumnType := "INT64"
/-- Modelled from the spec: the constant `pc.ColumnTypeString`. -/
def ColumnTypeString : ColumnType := "STRING"
/-- Modelled from the spec: the constant `pc.ColumnTypeTimestamp`. -/
def ColumnTypeTimestamp : ColumnType := "TIMESTAMP"

/-- Modelled from the spec: `pc.DataPoolStatusCreated` (absent from the sources). -/
def DataPoolStatusCreated : String := "CREATED"
/-- Modelled from the spec: `pc.DataPoolStatusPending`. -/
def DataPoolStatusPending : String := "PENDING"
/-- Modelled from the spec: `pc.DataPoolStatusLive`. -/
def DataPoolStatusLive : String := "LIVE"
/-- Modelled from the spec: `pc.DataSourceStatusCreated`. -/
def DataSourceStatusCreated : String := "CREATED"
/-- Modelled from the spec: `pc.DataSourceStatusConnecting`. -/
def DataSourceStatusConnecting : String := "CONNECTING"
/-- Modelled from the spec: `pc.DataSourceStatusConnected`. -/
def DataSourceStatusConnected : String := "CONNECTED"

/-- Record `pc.DataPoolColumnInput`, with the fields the sources fill. -/
structure DataPoolColumnInput where
  ColumnName : String
  Type_ : ColumnType
  IsNullable : Bool
  deriving DecidableEq, Repr

/-- Record `pc.HttpDataSourceColumnInput`. -/
structure HttpDataSourceColumnInput where
  Name : String
  Type_ : ColumnType
  Nullable : Bool
  deriving DecidableEq, Repr

/-- Record `pc.S3DataSourceColumnInput`. -/
structure S3DataSourceColumnInput where
  Name : String
  Type_ : ColumnType
  Nullable : Bool
  deriving DecidableEq, Repr

/-- Record `pc.HttpDataSourceTableInput`. -/
structure HttpDataSourceTableInput where
  Name : String
  Columns : List HttpDataSourceColumnInput
  deriving DecidableEq, Repr

/-- Record `pc.S3DataSourceTableInput`; `Path` is a pointer in Go. -/
structure S3DataSourceTableInput where
  Name : String
  Path : Option String
  Columns : List S3DataSourceColumnInput
  deriving DecidableEq, Repr

/-- Record `pc.HttpBasicAuthInput`. -/
structure HttpBasicAuthInput where
  Username : String
  Password : String
  deriving DecidableEq, Repr

/-- Record `pc.CreateDataPoolInputV2`; pointer fields are options, and the
`Timestamp` and `Tenant` inputs are represented by their column name. -/
structure CreateDataPoolInputV2 where
  UniqueName : Option String
  Description : Option String
  DataSource : String
  Table : String
  Timestamp : Option String
  Columns : List DataPoolColumnInput
  Tenant : Option String
  deriving DecidableEq, Repr

/-- Record `pc.ModifyDataPoolInput`; `Id` is the `Id` of its `IdOrUniqueName`. -/
structure ModifyDataPoolInput where
  Id : Option String
  UniqueName : Option String
  Description : Option String
  deriving DecidableEq, Repr

/-- Record `pc.SnowflakeConnectionSettingsInput`. -/
structure SnowflakeConnectionSettingsInput where
  Account : String
  Database : String
  Warehouse : String
  Schema : String
  Role : String
  Username : String
  Password : String
  deriving DecidableEq, Repr

/-- Record `pc.CreateSnowflakeDataSourceInput`. -/
structure CreateSnowflakeDataSourceInput where
  UniqueName : Option String
  Description : Option String
  ConnectionSettings : SnowflakeConnectionSettingsInput
  deriving DecidableEq, Repr

/-- Record `pc.CreateHttpDataSourceInput`, its `HttpConnectionSettingsInput`
flattened into `BasicAuth` and `Tables`. -/
structure CreateHttpDataSourceInput where
  UniqueName : Option String
  Description : Option String
  BasicAuth : Option HttpBasicAuthInput
  Tables : List HttpDataSourceTableInput
  deriving DecidableEq, Repr

/-- Record `pc.CreateS3DataSourceInput`, its `S3ConnectionSettingsInput`
flattened. -/
structure CreateS3DataSourceInput where
  UniqueName : Option String
  Description : Option String
  Bucket : String
  AwsAccessKeyId : String
  AwsSecretAccessKey : String
  Tables : List S3DataSourceTableInput
  deriving DecidableEq, Repr

/-- Record `pc.ModifySnowflakeDataSourceInput`. -/
structure ModifySnowflakeDataSourceInput where
  Id : Option String
  UniqueName : Option String
  Description : Option String
  deriving DecidableEq, Repr

/-- The fields of a `pc.DataPoolResponse` that the sources read. -/
structure DataPoolResponse where
  Id : String
  UniqueName : String
  Description : String
  Status : String
  EnvironmentId : String
  AccountId : String
  DataSourceId : String
  Table : String
  TimestampColumnName : String
  deriving DecidableEq, Repr

/-- A column node of a table of a Data Source response. -/
structure ColumnNode where
  Name : String
  Type_ : ColumnType
  IsNullable : Bool
  deriving DecidableEq, Repr

/-- A table node of a Data Source response; `Columns` is `table.Columns.Nodes`. -/
structure TableNode where
  Name : String
  Columns : List ColumnNode
  deriving DecidableEq, Repr

/-- The polymorphic `ConnectionSettings` of a Data Source response: the three
variants the sources switch on, and `other` for anything else (`default:`). -/
inductive ConnectionSettings where
  | snowflake (Account Database Warehouse Schema Role Username : String)
  | http (BasicAuthUsername : Option String)
  | s3 (Bucket AwsAccessKeyId : String)
  | other
  deriving DecidableEq, Repr

/-- The fields of a `pc.DataSourceResponse` that the sources read.  `CreatedAt`
and `ModifiedAt` are the texts `GetCreatedAt().String()` and
`GetModifiedAt().String()`; `Tables` is `none` for a nil `Tables` and otherwise
`Tables.Nodes`. -/
structure DataSourceResponse where
  Id : String
  UniqueName : String
  Description : String
  CreatedAt : String
  CreatedBy : String
  ModifiedAt : String
  ModifiedBy : String
  EnvironmentId : String
  AccountId : String
  Type_ : String
  Status : String
  ConnectionSettings : ConnectionSettings
  Tables : Option (List TableNode)
  deriving DecidableEq, Repr

/-- The two variants of the response of `pc.CreateSnowflakeDataSource`: the
`DataSourceResponse` variant with the new id, and the `FailureResponse` variant. -/
inductive CreateSnowflakeDataSourceResponse where
  | DataSourceResponse (Id : String)
  | FailureResponse
  deriving DecidableEq, Repr

/-- A remote call, as recorded in the call log. -/
inductive RemoteCall where
  | CreateDataPool (input : CreateDataPoolInputV2)
  | DataPool (id : String)
  | ModifyDataPool (input : ModifyDataPoolInput)
  | DeleteDataPool (id : String)
  | CreateSnowflakeDataSource (input : CreateSnowflakeDataSourceInput)
  | CreateHttpDataSource (input : CreateHttpDataSourceInput)
  | CreateS3DataSource (input : CreateS3DataSourceInput)
  | DataSource (id : String)
  | ModifySnowflakeDataSource (input : ModifySnowflakeDataSourceInput)
  | DeleteDataSource (id : String)
  deriving DecidableEq, Repr

/-- The remote API behind `graphql.Client`.  The first argument of every
operation is the number of remote calls issued before this one; the result is
the response, or the text of the returned error.  A cancelled context shows up
as an error of the call. -/
structure Client where
  CreateDataPool : Nat → CreateDataPoolInputV2 → Except String String
  DataPool : Nat → String → Except String DataPoolResponse
  ModifyDataPool : Nat → ModifyDataPoolInput → Except String Unit
  DeleteDataPool : Nat → String → Except String Unit
  CreateSnowflakeDataSource :
    Nat → CreateSnowflakeDataSourceInput → Except String CreateSnowflakeDataSourceResponse
  CreateHttpDataSource : Nat → CreateHttpDataSourceInput → Except String String
  CreateS3DataSource : Nat → CreateS3DataSourceInput → Except String String
  DataSource : Nat → String → Except String DataSourceResponse
  ModifySnowflakeDataSource : Nat → ModifySnowflakeDataSourceInput → Except String Unit
  DeleteDataSource : Nat → String → Except String Unit

/-! ## Durations -/

/-- Constant `time.Second`, in nanoseconds. -/
def Second : Int := 1000000000

/-- Constant `time.Minute`, in nanoseconds. -/
def Minute : Int := 60 * Second

/-- Reduction of an integer to the range of a Go `int64`. -/
def wrapInt64 (x : Int) : Int :=
  (x + 2 ^ 63) % 2 ^ 64 - 2 ^ 63

/-- Subtraction of two `time.Duration`s (`int64` arithmetic). -/
def durationSub (a b : Int) : Int :=
  wrapInt64 (a - b)

/-- The conversion `int(timeout.Seconds())`: the duration in seconds, truncated
toward zero.  (`Seconds` goes through a `float64`; the truncation of the exact
quotient is what it yields for every whole number of seconds and for every
duration shorter than `2^24` seconds; from there on the `float64` can round up to
the next whole second, so statements that depend on the exact value are made over
the value of `timeoutSeconds` itself and linked to the timeout for `shortTimeout`
durations only.) -/
def durationSeconds (timeout : Int) : Int :=
  Int.tdiv timeout Second

/-! ## Diagnostics -/

/-- Severity of a diagnostic. -/
inductive Severity where
  | Error
  | Warning
  deriving DecidableEq, Repr

/-- Record `diag.Diagnostic`. -/
structure Diagnostic where
  Severity : Severity
  Summary : String
  Detail : String := ""
  deriving DecidableEq, Repr

/-- Type `diag.Diagnostics`; the nil slice is the empty list. -/
abbrev Diagnostics := List Diagnostic

/-- Function `diag.FromErr`, on a non-nil error with text `e`. -/
def FromErr (e : String) : Diagnostics :=
  [{ Severity := Severity.Error, Summary := e }]

/-- Function `diag.Errorf`, the format already expanded to `msg`. -/
def Errorf (msg : String) : Diagnostics :=
  [{ Severity := Severity.Error, Summary := msg }]

/-! ## Wait for the deletion of a Data Pool -/

/-- The `for range ticker.C` loop of `waitForDataPoolDeletion`, one iteration per
tick.  `n` is the loop counter of the source and `calls` the log of remote calls
so far; the result is the returned error (`none` for `nil`) and the log.
`n * ticketInterval` stays far below `2^63`, so the `int` product never wraps. -/
def waitForDataPoolDeletionLoop (c : Client) (id : String) (timeoutSeconds : Int)
    (n : Nat) (calls : List RemoteCall) : Option String × List RemoteCall :=
  if (n : Int) * 10 > timeoutSeconds then
    (none, calls)
  else
    match c.DataPool calls.length id with
    | .error err =>
      if Contains err "not found" then
        (none, calls ++ [RemoteCall.DataPool id])
      else
        (some ("error trying to fetch Data Pool: " ++ err), calls ++ [RemoteCall.DataPool id])
    | .ok _ =>
      waitForDataPoolDeletionLoop c id timeoutSeconds (n + 1) (calls ++ [RemoteCall.DataPool id])
termination_by (timeoutSeconds + 10 - (n : Int) * 10).toNat
decreasing_by
  omega

/-- Function `waitForDataPoolDeletion`. -/
def waitForDataPoolDeletion (c : Client) (calls : List RemoteCall) (id : String)
    (timeout : Int) : Option String × List RemoteCall :=
  waitForDataPoolDeletionLoop c id (durationSeconds timeout) 0 calls

/-! ## The Go runtime and the Terraform plugin SDK -/

/-- The behaviour of library code that the sources call and that is not part of
the repository: the Unicode case table behind `strings.ToUpper`, the error (if
any) with which `d.Set` rejects a value for a key, and the error texts of the
SDK poller. -/
structure Sdk where
  unicodeToUpper : Char → Char
  setError : String → Value → Option String
  unexpectedStateError : String → String
  timeoutError : String → String

/-- Go `strings.ToUpper`: a string of ASCII characters only is upper-cased by the
ASCII rule; any other string is mapped character by character through
`unicode.ToUpper`. -/
def ToUpper (sdk : Sdk) (s : String) : String :=
  if s.data.all (fun c => c.toNat < 128) then
    String.mk (s.data.map asciiUpper)
  else
    String.mk (s.data.map sdk.unicodeToUpper)

/-- Record `resource.StateChangeConf`, with the fields the sources fill
(`Refresh` is passed separately). -/
structure StateChangeConf where
  Pending : List String
  Target : List String
  Timeout : Int
  Delay : Int
  MinTimeout : Int
  ContinuousTargetOccurence : Nat

/-- Modelled from the spec: the status poller of §4.3 (Wait-for-status), which in
the repository is the SDK method `StateChangeConf.WaitForStateContext` and is not
part of the sources.  Reads are issued on the fixed interval `conf.Delay`, read
`k` (counted from 0) at elapsed time `(k + 1) * conf.Delay`; this predicate says
that read `k` is issued, that is, that the elapsed time does not exceed the
deadline `conf.Timeout`. -/
def issuedBeforeDeadline (conf : StateChangeConf) (k : Nat) : Prop :=
  0 < conf.Delay ∧ ((k : Int) + 1) * conf.Delay ≤ conf.Timeout

instance (conf : StateChangeConf) (k : Nat) : Decidable (issuedBeforeDeadline conf k) := by
  unfold issuedBeforeDeadline
  exact inferInstance

/-- Modelled from the spec: the poll loop of §4.3 (Wait-for-status), external to
the sources.  `refresh k` is the outcome of the `k`-th call of `conf.Refresh`,
`occ` the number of consecutive target observations so far and `last` the last
status seen.  If the elapsed time exceeds the deadline the wait aborts as
TimedOut; a failed read aborts with that error; a target status counts towards
the stability count `conf.ContinuousTargetOccurence` and ends the wait with
success once the count is reached; a pending status resets the count; any other
status aborts as Failed.  The result is the error text (`none` on success) and
the number of reads issued. -/
def pollLoop (sdk : Sdk) (conf : StateChangeConf) (refresh : Nat → Except String String)
    (k occ : Nat) (last : String) : Option String × Nat :=
  if h : issuedBeforeDeadline conf k then
    match refresh k with
    | .error err => (some err, k + 1)
    | .ok state =>
      if state ∈ conf.Target then
        if occ + 1 ≥ conf.ContinuousTargetOccurence then
          (none, k + 1)
        else
          pollLoop sdk conf refresh (k + 1) (occ + 1) state
      else if state ∈ conf.Pending then
        pollLoop sdk conf refresh (k + 1) 0 state
      else
        (some (sdk.unexpectedStateError state), k + 1)
  else
    (some (sdk.timeoutError last), k)
termination_by (conf.Timeout - (k : Int) * conf.Delay).toNat
decreasing_by
  all_goals
    obtain ⟨hd, hk⟩ := h
    have e : ((k : Int) + 1) * conf.Delay = (k : Int) * conf.Delay + conf.Delay := by ring
    have e2 : (((k + 1 : Nat) : Int)) * conf.Delay = (k : Int) * conf.Delay + conf.Delay := by
      push_cast; ring
    rw [e] at hk
    rw [e2]
    omega

/-- Modelled from the spec: `StateChangeConf.WaitForStateContext`, the poll loop
started with no reads issued. -/
def WaitForStateContext (sdk : Sdk) (conf : StateChangeConf)
    (refresh : Nat → Except String String) : Option String × Nat :=
  pollLoop sdk conf refresh 0 0 ""

/-! ## Waits for a target status -/

/-- The `StateChangeConf` that `waitForDataPoolLive` builds. -/
def waitForDataPoolLiveConf (timeout : Int) : StateChangeConf :=
  { Pending := [DataPoolStatusCreated, DataPoolStatusPending]
    Target := [DataPoolStatusLive]
    Timeout := durationSub timeout Minute
    Delay := 10 * Second
    MinTimeout := 5 * Second
    ContinuousTargetOccurence := 3 }

/-- The `Refresh` closure of `waitForDataPoolLive`, at its `k`-th call. -/
def dataPoolRefresh (c : Client) (calls : List RemoteCall) (id : String) (k : Nat) :
    Except String String :=
  match c.DataPool (calls.length + k) id with
  | .error err => .error ("error trying to read Data Pool status: " ++ err)
  | .ok resp => .ok resp.Status

/-- Function `waitForDataPoolLive`: the returned error (`none` for nil) and the
call log. -/
def waitForDataPoolLive (sdk : Sdk) (c : Client) (calls : List RemoteCall) (id : String)
    (timeout : Int) : Option String × List RemoteCall :=
  match WaitForStateContext sdk (waitForDataPoolLiveConf timeout) (dataPoolRefresh c calls id) with
  | (some err, n) =>
    (some ("error waiting for Data Pool to be LIVE: " ++ err),
      calls ++ List.replicate n (RemoteCall.DataPool id))
  | (none, n) => (none, calls ++ List.replicate n (RemoteCall.DataPool id))

/-- The `StateChangeConf` that `waitForDataSourceConnected` builds. -/
def waitForDataSourceConnectedConf (timeout : Int) : StateChangeConf :=
  { Pending := [DataSourceStatusCreated, DataSourceStatusConnecting]
    Target := [DataSourceStatusConnected]
    Timeout := durationSub timeout Minute
    Delay := 10 * Second
    MinTimeout := 5 * Second
    ContinuousTargetOccurence := 3 }

/-- The `Refresh` closure of `waitForDataSourceConnected`, at its `k`-th call. -/
def dataSourceRefresh (c : Client) (calls : List RemoteCall) (id : String) (k : Nat) :
    Except String String :=
  match c.DataSource (calls.length + k) id with
  | .error err => .error ("error trying to read Data Source status: " ++ err)
  | .ok resp => .ok resp.Status

/-- Function `waitForDataSourceConnected`: the returned error (`none` for nil) and
the call log. -/
def waitForDataSourceConnected (sdk : Sdk) (c : Client) (calls : List RemoteCall)
    (id : String) (timeout : Int) : Option String × List RemoteCall :=
  match WaitForStateContext sdk (waitForDataSourceConnectedConf timeout)
      (dataSourceRefresh c calls id) with
  | (some err, n) =>
    (some ("error waiting for Data Source to be CONNECTED: " ++ err),
      calls ++ List.replicate n (RemoteCall.DataSource id))
  | (none, n) => (none, calls ++ List.replicate n (RemoteCall.DataSource id))

/-! ## Resource data -/

/-- The keys of `d.Timeout`: `schema.TimeoutCreate` and `schema.TimeoutDelete`. -/
inductive TimeoutKey where
  | TimeoutCreate
  | TimeoutDelete
  deriving DecidableEq, Repr

/-- The parts of a `*schema.ResourceData` that the sources use: the id, the
attribute values that `d.Get` returns, the keys that `d.HasChanges` reports as
changed, and the operation timeouts. -/
structure ResourceData where
  id : String
  attrs : List (String × Value)
  changed : List String
  Timeout : TimeoutKey → Int

/-- Method `d.Get(key)`; a key without a value yields `nil`. -/
def ResourceData.Get (d : ResourceData) (key : String) : Value :=
  mapIndex d.attrs key

/-- Whether a value is the zero value of its type. -/
def Value.isZero : Value → Bool
  | .null => true
  | .str s => s == ""
  | .bool b => !b
  | .list xs => xs.isEmpty
  | .map kvs => kvs.isEmpty

/-- The second result of `d.GetOk(key)`: the key is set to a non-zero value. -/
def ResourceData.GetOk (d : ResourceData) (key : String) : Bool :=
  !(d.Get key).isZero

/-- Method `d.Set(key, value)`: the error of the SDK, or the data with the new
value for the key.  The value is recorded as it was handed over; the pass through
the schema that the SDK makes when a nested value is read back (it adds the zero
value of every optional key that was not set) is not represented, so statements
about nested values are made about the value handed to `d.Set`. -/
def ResourceData.Set (sdk : Sdk) (d : ResourceData) (key : String) (value : Value) :
    Except String ResourceData :=
  match sdk.setError key value with
  | some err => .error err
  | none => .ok { d with attrs := (key, value) :: d.attrs }

/-- Method `d.SetId(id)`. -/
def ResourceData.SetId (d : ResourceData) (id : String) : ResourceData :=
  { d with id := id }

/-- Method `d.HasChanges(keys...)`. -/
def ResourceData.HasChanges (d : ResourceData) (keys : List String) : Bool :=
  keys.any (fun key => d.changed.contains key)

/-- The state an operation runs in: the resource data and the log of the remote
calls issued so far. -/
structure World where
  d : ResourceData
  calls : List RemoteCall

/-- The statement `if err := d.Set(key, value); err != nil { return diag.FromErr(err) }`
followed by the rest `k` of the function. -/
def setOrReturn (sdk : Sdk) (w : World) (key : String) (value : Value)
    (k : World → Option (World × Diagnostics)) : Option (World × Diagnostics) :=
  match w.d.Set sdk key value with
  | .error err => some (w, FromErr err)
  | .ok d => k { w with d := d }

/-! ## Column and table mappers -/

/-- The `switch column["type"].(string)` of `expandPoolColumns`. -/
def poolColumnType (type : String) : ColumnType :=
  match type with
  | "BOOLEAN" => ColumnTypeBoolean
  | "DATE" => ColumnTypeDate
  | "DOUBLE" => ColumnTypeDouble
  | "INT8" => ColumnTypeInt8
  | "INT16" => ColumnTypeInt16
  | "INT32" => ColumnTypeInt32
  | "INT64" => ColumnTypeInt64
  | "STRING" => ColumnTypeString
  | "TIMESTAMP" => ColumnTypeTimestamp
  | _ => ColumnTypeZero

/-- The `switch column["type"].(string)` of `expandHttpColumns`. -/
def httpColumnType (type : String) : ColumnType :=
  match type with
  | "BOOLEAN" => ColumnTypeBoolean
  | "DATE" => ColumnTypeDate
  | "DOUBLE" => ColumnTypeDouble
  | "INT8" => ColumnTypeInt8
  | "INT16" => ColumnTypeInt16
  | "INT32" => ColumnTypeInt32
  | "INT64" => ColumnTypeInt64
  | "STRING" => ColumnTypeString
  | "TIMESTAMP" => ColumnTypeTimestamp
  | _ => ColumnTypeZero

/-- The `switch column["type"].(string)` of `expandS3Columns`. -/
def s3ColumnType (type : String) : ColumnType :=
  match type with
  | "BOOLEAN" => ColumnTypeBoolean
  | "DATE" => ColumnTypeDate
  | "DOUBLE" => ColumnTypeDouble
  | "INT8" => ColumnTypeInt8
  | "INT16" => ColumnTypeInt16
  | "INT32" => ColumnTypeInt32
  | "INT64" => ColumnTypeInt64
  | "STRING" => ColumnTypeString
  | "TIMESTAMP" => ColumnTypeTimestamp
  | _ => ColumnTypeZero

/-- The loop body of `expandPoolColumns` for one raw column. -/
def expandPoolColumn (rawColumn : Value) : Option DataPoolColumnInput := do
  let column ← rawColumn.asMap
  let type ← (mapIndex column "type").asString
  let columnType := poolColumnType type
  let name ← (mapIndex column "name").asString
  let nullable ← (mapIndex column "nullable").asBool
  pure { ColumnName := name, Type_ := columnType, IsNullable := nullable }

/-- Function `expandPoolColumns`. -/
def expandPoolColumns : List Value → Option (List DataPoolColumnInput)
  | [] => some []
  | rawColumn :: rest => do
    let column ← expandPoolColumn rawColumn
    let columns ← expandPoolColumns rest
    pure (column :: columns)

/-- The loop body of `expandHttpColumns` for one raw column. -/
def expandHttpColumn (rawColumn : Value) : Option HttpDataSourceColumnInput := do
  let column ← rawColumn.asMap
  let type ← (mapIndex column "type").asString
  let columnType := httpColumnType type
  let name ← (mapIndex column "name").asString
  let nullable ← (mapIndex column "nullable").asBool
  pure { Name := name, Type_ := columnType, Nullable := nullable }

/-- Function `expandHttpColumns`. -/
def expandHttpColumns : List Value → Option (List HttpDataSourceColumnInput)
  | [] => some []
  | rawColumn :: rest => do
    let column ← expandHttpColumn rawColumn
    let columns ← expandHttpColumns rest
    pure (column :: columns)

/-- The loop body of `expandS3Columns` for one raw column. -/
def expandS3Column (rawColumn : Value) : Option S3DataSourceColumnInput := do
  let column ← rawColumn.asMap
  let type ← (mapIndex column "type").asString
  let columnType := s3ColumnType type
  let name ← (mapIndex column "name").asString
  let nullable ← (mapIndex column "nullable").asBool
  pure { Name := name, Type_ := columnType, Nullable := nullable }

/-- Function `expandS3Columns`. -/
def expandS3Columns : List Value → Option (List S3DataSourceColumnInput)
  | [] => some []
  | rawColumn :: rest => do
    let column ← expandS3Column rawColumn
    let columns ← expandS3Columns rest
    pure (column :: columns)

/-- The loop body of `expandHttpTables` for one raw table. -/
def expandHttpTable (rawTable : Value) : Option HttpDataSourceTableInput := do
  let table ← rawTable.asMap
  let def_ ← (mapIndex table "column").asList
  let columns ← expandHttpColumns def_
  let name ← (mapIndex table "name").asString
  pure { Name := name, Columns := columns }

/-- Function `expandHttpTables`. -/
def expandHttpTables : List Value → Option (List HttpDataSourceTableInput)
  | [] => some []
  | rawTable :: rest => do
    let table ← expandHttpTable rawTable
    let tables ← expandHttpTables rest
    pure (table :: tables)

/-- The loop body of `expandS3Tables` for one raw table. -/
def expandS3Table (rawTable : Value) : Option S3DataSourceTableInput := do
  let table ← rawTable.asMap
  let def_ ← (mapIndex table "column").asList
  let columns ← expandS3Columns def_
  let path ← (mapIndex table "path").asString
  let name ← (mapIndex table "name").asString
  pure { Name := name, Path := some path, Columns := columns }

/-- Function `expandS3Tables`. -/
def expandS3Tables : List Value → Option (List S3DataSourceTableInput)
  | [] => some []
  | rawTable :: rest => do
    let table ← expandS3Table rawTable
    let tables ← expandS3Tables rest
    pure (table :: tables)

/-- Function `expandBasicAuth`; `def[0]` on an empty list is the panic. -/
def expandBasicAuth (def_ : List Value) : Option HttpBasicAuthInput := do
  let first ← def_.head?
  let basicAuth ← first.asMap
  let username ← (mapIndex basicAuth "username").asString
  let password ← (mapIndex basicAuth "password").asString
  pure { Username := username, Password := password }

/-- A column record as the schema delivers it: a map with a string `name`, a
string `type` and a boolean `nullable`. -/
def columnRecord (name type : String) (nullable : Bool) : Value :=
  Value.map [("name", Value.str name), ("type", Value.str type),
    ("nullable", Value.bool nullable)]

/-- Modelled from the spec: the ten column type literals of §6 (the validator
`utils.IsValidColumnType` is not part of the sources). -/
def columnTypeLiterals : List String :=
  ["BOOLEAN", "DATE", "DOUBLE", "FLOAT", "INT8", "INT16", "INT32", "INT64", "STRING",
    "TIMESTAMP"]

/-- The literals that have a `case` in the mappers: all defined ones but FLOAT. -/
def mappedLiterals : List String :=
  ["BOOLEAN", "DATE", "DOUBLE", "INT8", "INT16", "INT32", "INT64", "STRING", "TIMESTAMP"]

/-! ## Data Source: Read -/

/-- Function `handleSnowflakeConnectionSettings`. -/
def handleSnowflakeConnectionSettings (sdk : Sdk) (response : DataSourceResponse)
    (w : World) : Option (World × Diagnostics) := do
  let list ← (w.d.Get "snowflake_connection_settings").asList
  let first ← list.head?
  let cs ← first.asMap
  match response.ConnectionSettings with
  | .snowflake account database warehouse schema role username =>
    let settings : List (String × Value) :=
      [("password", mapIndex cs "password"), ("account", Value.str account),
        ("database", Value.str database), ("warehouse", Value.str warehouse),
        ("schema", Value.str schema), ("role", Value.str role),
        ("username", Value.str username)]
    match w.d.Set sdk "snowflake_connection_settings" (Value.list [Value.map settings]) with
    | .error err => some (w, FromErr err)
    | .ok d => some ({ w with d := d }, [])
  | _ => some (w, Errorf "Missing SnowflakeConnectionSettings")

/-- The value that `handleHttpTables` and `handleS3Tables` build from the table
nodes of a response. -/
def flattenTables (nodes : List TableNode) : Value :=
  Value.list (nodes.map fun table =>
    Value.map [("name", Value.str table.Name),
      ("column", Value.list (table.Columns.map fun column =>
        Value.map [("name", Value.str column.Name), ("type", Value.str column.Type_),
          ("nullable", Value.bool column.IsNullable)]))])

/-- Function `handleHttpTables`. -/
def handleHttpTables (sdk : Sdk) (response : DataSourceResponse) (w : World) :
    World × Diagnostics :=
  match response.Tables with
  | none => (w, [])
  | some nodes =>
    match w.d.Set sdk "table" (flattenTables nodes) with
    | .error err => (w, FromErr err)
    | .ok d => ({ w with d := d }, [])

/-- Function `handleS3Tables`. -/
def handleS3Tables (sdk : Sdk) (response : DataSourceResponse) (w : World) :
    World × Diagnostics :=
  match response.Tables with
  | none => (w, [])
  | some nodes =>
    match w.d.Set sdk "table" (flattenTables nodes) with
    | .error err => (w, FromErr err)
    | .ok d => ({ w with d := d }, [])

/-- Function `handleHttpConnectionSettings`.  The assignments to `cs` and to
`basicAuth` change maps that `d.Get` returned, not the resource data, so only the
type assertions on the way and the returned diagnostics remain. -/
def handleHttpConnectionSettings (response : DataSourceResponse) (w : World) :
    Option (World × Diagnostics) :=
  if !(w.d.Get "http_connection_settings").notNil then
    some (w, [])
  else do
    let list ← (w.d.Get "http_connection_settings").asList
    if list.length == 0 then
      some (w, [])
    else
      let first ← list.head?
      let cs ← first.asMap
      match response.ConnectionSettings with
      | .http none => some (w, [])
      | .http (some _) =>
        if (mapIndex cs "basic_auth").notNil then do
          let auths ← (mapIndex cs "basic_auth").asList
          if auths.length > 0 then
            let firstAuth ← auths.head?
            let _ ← firstAuth.asMap
            some (w, [])
          else
            some (w, [])
        else
          some (w, [])
      | _ => some (w, Errorf "Missing HttpConnectionSettings")

/-- Function `handleS3ConnectionSettings`.  The map `settings` that it fills is
never written back with `d.Set`. -/
def handleS3ConnectionSettings (response : DataSourceResponse) (w : World) :
    Option (World × Diagnostics) := do
  let list ← (w.d.Get "s3_connection_settings").asList
  let first ← list.head?
  let _ ← first.asMap
  match response.ConnectionSettings with
  | .s3 _ _ => some (w, [])
  | _ => some (w, Errorf "Missing S3ConnectionSettings")

/-- The `switch strings.ToUpper(dataSourceType)` that ends `resourceDataSourceRead`. -/
def readDispatch (sdk : Sdk) (response : DataSourceResponse) (w : World) :
    Option (World × Diagnostics) :=
  let dataSourceType := response.Type_
  match ToUpper sdk dataSourceType with
  | "SNOWFLAKE" => handleSnowflakeConnectionSettings sdk response w
  | "HTTP" =>
    let r := handleHttpTables sdk response w
    if r.2 ≠ [] then some r else handleHttpConnectionSettings response r.1
  | "S3" =>
    let r := handleS3Tables sdk response w
    if r.2 ≠ [] then some r else handleS3ConnectionSettings response r.1
  | _ => some (w, Errorf ("Unsupported Data Source type \"" ++ dataSourceType ++ "\""))

/-- Function `resourceDataSourceRead`. -/
def resourceDataSourceRead (sdk : Sdk) (c : Client) (w : World) :
    Option (World × Diagnostics) :=
  let w1 : World := { w with calls := w.calls ++ [RemoteCall.DataSource w.d.id] }
  match c.DataSource w.calls.length w.d.id with
  | .error err => some (w1, FromErr err)
  | .ok response =>
    let w2 : World := { w1 with d := w1.d.SetId response.Id }
    setOrReturn sdk w2 "unique_name" (Value.str response.UniqueName) fun w =>
    setOrReturn sdk w "description" (Value.str response.Description) fun w =>
    setOrReturn sdk w "created_at" (Value.str response.CreatedAt) fun w =>
    setOrReturn sdk w "created_by" (Value.str response.CreatedBy) fun w =>
    setOrReturn sdk w "modified_at" (Value.str response.ModifiedAt) fun w =>
    setOrReturn sdk w "modified_by" (Value.str response.ModifiedBy) fun w =>
    setOrReturn sdk w "environment" (Value.str response.EnvironmentId) fun w =>
    setOrReturn sdk w "account" (Value.str response.AccountId) fun w =>
    setOrReturn sdk w "type" (Value.str response.Type_) fun w =>
    setOrReturn sdk w "status" (Value.str response.Status) fun w =>
    readDispatch sdk response w

/-! ## Data Source: Create, Update, Delete -/

/-- The tail shared by the three create sub-paths once the remote create call
has returned the id: `d.SetId`, `d.Timeout(schema.TimeoutCreate)`,
`waitForDataSourceConnected`, and the final `resourceDataSourceRead`. -/
def dataSourceCreated (sdk : Sdk) (c : Client) (w : World) (id : String) :
    Option (World × Diagnostics) :=
  let w2 : World := { w with d := w.d.SetId id }
  let timeout := w2.d.Timeout TimeoutKey.TimeoutCreate
  match waitForDataSourceConnected sdk c w2.calls w2.d.id timeout with
  | (some err, calls) => some ({ w2 with calls := calls }, FromErr err)
  | (none, calls) => resourceDataSourceRead sdk c { w2 with calls := calls }

/-- The input that `resourceSnowflakeDataSourceCreate` builds. -/
def snowflakeCreateInput (d : ResourceData) : Option CreateSnowflakeDataSourceInput := do
  let list ← (d.Get "snowflake_connection_settings").asList
  let first ← list.head?
  let connectionSettings ← first.asMap
  let uniqueName ← (d.Get "unique_name").asString
  let description ← (d.Get "description").asString
  let account ← (mapIndex connectionSettings "account").asString
  let database ← (mapIndex connectionSettings "database").asString
  let warehouse ← (mapIndex connectionSettings "warehouse").asString
  let schema ← (mapIndex connectionSettings "schema").asString
  let role ← (mapIndex connectionSettings "role").asString
  let username ← (mapIndex connectionSettings "username").asString
  let password ← (mapIndex connectionSettings "password").asString
  pure { UniqueName := some uniqueName, Description := some description,
         ConnectionSettings :=
          { Account := account, Database := database, Warehouse := warehouse,
            Schema := schema, Role := role, Username := username, Password := password } }

/-- Function `resourceSnowflakeDataSourceCreate`. -/
def resourceSnowflakeDataSourceCreate (sdk : Sdk) (c : Client) (w : World) :
    Option (World × Diagnostics) := do
  let input ← snowflakeCreateInput w.d
  let w1 : World := { w with calls := w.calls ++ [RemoteCall.CreateSnowflakeDataSource input] }
  match c.CreateSnowflakeDataSource w.calls.length input with
  | .error err => some (w1, FromErr err)
  | .ok (.DataSourceResponse id) => dataSourceCreated sdk c w1 id
  | .ok .FailureResponse =>
    some (w1, [{ Severity := Severity.Error, Summary := "Failed to create Data Source" }])

/-- The `basicAuth` that `resourceHttpDataSourceCreate` computes. -/
def httpBasicAuth (d : ResourceData) : Option (Option HttpBasicAuthInput) :=
  if (d.Get "http_connection_settings").notNil then do
    let list ← (d.Get "http_connection_settings").asList
    if list.length > 0 then
      let first ← list.head?
      let cs ← first.asMap
      if mapHasKey cs "basic_auth" then do
        let def_ ← (mapIndex cs "basic_auth").asList
        let basicAuth ← expandBasicAuth def_
        pure (some basicAuth)
      else
        pure none
    else
      pure none
  else
    pure none

/-- The input that `resourceHttpDataSourceCreate` builds. -/
def httpCreateInput (d : ResourceData) : Option CreateHttpDataSourceInput := do
  let basicAuth ← httpBasicAuth d
  let tables ←
    match d.Get "table" with
    | .list def_ => if def_.length > 0 then expandHttpTables def_ else some []
    | _ => some []
  let uniqueName ← (d.Get "unique_name").asString
  let description ← (d.Get "description").asString
  pure { UniqueName := some uniqueName, Description := some description,
         BasicAuth := basicAuth, Tables := tables }

/-- Function `resourceHttpDataSourceCreate`. -/
def resourceHttpDataSourceCreate (sdk : Sdk) (c : Client) (w : World) :
    Option (World × Diagnostics) := do
  let input ← httpCreateInput w.d
  let w1 : World := { w with calls := w.calls ++ [RemoteCall.CreateHttpDataSource input] }
  match c.CreateHttpDataSource w.calls.length input with
  | .error err => some (w1, FromErr err)
  | .ok id => dataSourceCreated sdk c w1 id

/-- The input that `resourceS3DataSourceCreate` builds. -/
def s3CreateInput (d : ResourceData) : Option CreateS3DataSourceInput := do
  let tables ←
    match d.Get "table" with
    | .list def_ => if def_.length > 0 then expandS3Tables def_ else some []
    | _ => some []
  let list ← (d.Get "s3_connection_settings").asList
  let first ← list.head?
  let connectionSettings ← first.asMap
  let uniqueName ← (d.Get "unique_name").asString
  let description ← (d.Get "description").asString
  let bucket ← (mapIndex connectionSettings "bucket").asString
  let awsAccessKeyId ← (mapIndex connectionSettings "aws_access_key_id").asString
  let awsSecretAccessKey ← (mapIndex connectionSettings "aws_secret_access_key").asString
  pure { UniqueName := some uniqueName, Description := some description, Bucket := bucket,
         AwsAccessKeyId := awsAccessKeyId, AwsSecretAccessKey := awsSecretAccessKey,
         Tables := tables }

/-- Function `resourceS3DataSourceCreate`. -/
def resourceS3DataSourceCreate (sdk : Sdk) (c : Client) (w : World) :
    Option (World × Diagnostics) := do
  let input ← s3CreateInput w.d
  let w1 : World := { w with calls := w.calls ++ [RemoteCall.CreateS3DataSource input] }
  match c.CreateS3DataSource w.calls.length input with
  | .error err => some (w1, FromErr err)
  | .ok id => dataSourceCreated sdk c w1 id

/-- Function `resourceDataSourceCreate`. -/
def resourceDataSourceCreate (sdk : Sdk) (c : Client) (w : World) :
    Option (World × Diagnostics) := do
  let dataSourceType ← (w.d.Get "type").asString
  match ToUpper sdk dataSourceType with
  | "SNOWFLAKE" => resourceSnowflakeDataSourceCreate sdk c w
  | "HTTP" => resourceHttpDataSourceCreate sdk c w
  | "S3" => resourceS3DataSourceCreate sdk c w
  | _ => some (w, Errorf ("Unsupported Data Source type \"" ++ dataSourceType ++ "\""))

/-- Function `resourceDataSourceUpdate`. -/
def resourceDataSourceUpdate (sdk : Sdk) (c : Client) (w : World) :
    Option (World × Diagnostics) :=
  if w.d.HasChanges ["unique_name", "description"] then do
    let id := w.d.id
    let uniqueName ← (w.d.Get "unique_name").asString
    let description ← (w.d.Get "description").asString
    let modifyDataSource : ModifySnowflakeDataSourceInput :=
      { Id := some id, UniqueName := some uniqueName, Description := some description }
    let w1 : World :=
      { w with calls := w.calls ++ [RemoteCall.ModifySnowflakeDataSource modifyDataSource] }
    match c.ModifySnowflakeDataSource w.calls.length modifyDataSource with
    | .error err => some (w1, FromErr err)
    | .ok _ => resourceDataSourceRead sdk c w1
  else
    resourceDataSourceRead sdk c w

/-- Function `resourceDataSourceDelete`. -/
def resourceDataSourceDelete (c : Client) (w : World) : Option (World × Diagnostics) :=
  let w1 : World := { w with calls := w.calls ++ [RemoteCall.DeleteDataSource w.d.id] }
  match c.DeleteDataSource w.calls.length w.d.id with
  | .error err => some (w1, FromErr err)
  | .ok _ => some ({ w1 with d := w1.d.SetId "" }, [])

/-! ## Data Pool: Create, Read, Update, Delete -/

/-- Function `resourceDataPoolRead`. -/
def resourceDataPoolRead (sdk : Sdk) (c : Client) (w : World) : Option (World × Diagnostics) :=
  let w1 : World := { w with calls := w.calls ++ [RemoteCall.DataPool w.d.id] }
  match c.DataPool w.calls.length w.d.id with
  | .error err => some (w1, FromErr err)
  | .ok response =>
    let w2 : World := { w1 with d := w1.d.SetId response.Id }
    setOrReturn sdk w2 "unique_name" (Value.str response.UniqueName) fun w =>
    setOrReturn sdk w "description" (Value.str response.Description) fun w =>
    setOrReturn sdk w "status" (Value.str response.Status) fun w =>
    setOrReturn sdk w "environment" (Value.str response.EnvironmentId) fun w =>
    setOrReturn sdk w "account" (Value.str response.AccountId) fun w =>
    setOrReturn sdk w "data_source" (Value.str response.DataSourceId) fun w =>
    setOrReturn sdk w "table" (Value.str response.Table) fun w =>
    setOrReturn sdk w "timestamp" (Value.str response.TimestampColumnName) fun w =>
    some (w, [])

/-- The input that `resourceDataPoolCreate` builds. -/
def dataPoolCreateInput (d : ResourceData) : Option CreateDataPoolInputV2 := do
  let id ← (d.Get "data_source").asString
  let uniqueName ← (d.Get "unique_name").asString
  let description ← (d.Get "description").asString
  let columns ←
    match d.Get "column" with
    | .list def_ => if def_.length > 0 then expandPoolColumns def_ else some []
    | _ => some []
  let table ← (d.Get "table").asString
  let timestamp ← (d.Get "timestamp").asString
  let tenant ←
    if d.GetOk "tenant_id" then (d.Get "tenant_id").asString.map some else some none
  pure { UniqueName := some uniqueName, Description := some description, DataSource := id,
         Table := table, Timestamp := some timestamp, Columns := columns, Tenant := tenant }

/-- Function `resourceDataPoolCreate`.  The diagnostics of the final
`resourceDataPoolRead` are dropped; its writes to the resource data stay. -/
def resourceDataPoolCreate (sdk : Sdk) (c : Client) (w : World) :
    Option (World × Diagnostics) := do
  let input ← dataPoolCreateInput w.d
  let w1 : World := { w with calls := w.calls ++ [RemoteCall.CreateDataPool input] }
  match c.CreateDataPool w.calls.length input with
  | .error err => some (w1, FromErr err)
  | .ok id =>
    let w2 : World := { w1 with d := w1.d.SetId id }
    let timeout := w2.d.Timeout TimeoutKey.TimeoutCreate
    match waitForDataPoolLive sdk c w2.calls w2.d.id timeout with
    | (some err, calls) => some ({ w2 with calls := calls }, FromErr err)
    | (none, calls) =>
      match resourceDataPoolRead sdk c { w2 with calls := calls } with
      | none => none
      | some (w3, _) => some (w3, [])

/-- Function `resourceDataPoolUpdate`. -/
def resourceDataPoolUpdate (sdk : Sdk) (c : Client) (w : World) :
    Option (World × Diagnostics) :=
  if w.d.HasChanges ["unique_name", "description"] then do
    let id := w.d.id
    let uniqueName ← (w.d.Get "unique_name").asString
    let description ← (w.d.Get "descriptionunique_name").asString
    let input : ModifyDataPoolInput :=
      { Id := some id, UniqueName := some uniqueName, Description := some description }
    let w1 : World := { w with calls := w.calls ++ [RemoteCall.ModifyDataPool input] }
    match c.ModifyDataPool w.calls.length input with
    | .error err => some (w1, FromErr err)
    | .ok _ => resourceDataPoolRead sdk c w1
  else
    resourceDataPoolRead sdk c w

/-- Function `resourceDataPoolDelete`. -/
def resourceDataPoolDelete (c : Client) (w : World) : Option (World × Diagnostics) :=
  let w1 : World := { w with calls := w.calls ++ [RemoteCall.DeleteDataPool w.d.id] }
  match c.DeleteDataPool w.calls.length w.d.id with
  | .error err => some (w1, FromErr err)
  | .ok _ =>
    let timeout := w1.d.Timeout TimeoutKey.TimeoutDelete
    match waitForDataPoolDeletion c w1.calls w1.d.id timeout with
    | (some err, calls) => some ({ w1 with calls := calls }, FromErr err)
    | (none, calls) => some ({ d := w1.d.SetId "", calls := calls }, [])

/-! ## Worked examples and notions used in the statements -/

/-- A Data Pool as returned by a read, with the given status. -/
def samplePool (status : String) : DataPoolResponse :=
  { Id := "dp_1", UniqueName := "pool", Description := "", Status := status,
    EnvironmentId := "env_1", AccountId := "acc_1", DataSourceId := "ds_1",
    Table := "events", TimestampColumnName := "created_at" }

/-- A Data Source as returned by a read, with the given type, status, connection
settings and tables. -/
def sampleSource (type status : String) (cs : ConnectionSettings)
    (tables : Option (List TableNode)) : DataSourceResponse :=
  { Id := "ds_1", UniqueName := "source", Description := "", CreatedAt := "t0",
    CreatedBy := "u0", ModifiedAt := "t1", ModifiedBy := "u1", EnvironmentId := "env_1",
    AccountId := "acc_1", Type_ := type, Status := status, ConnectionSettings := cs,
    Tables := tables }

/-- A remote API whose reads follow the two given scripts (indexed by the logical
clock), whose create calls return the ids `dp_1` and `ds_1`, and whose modify and
delete calls succeed. -/
def scriptedClient (pool : Nat → Except String DataPoolResponse)
    (source : Nat → Except String DataSourceResponse) : Client :=
  { CreateDataPool := fun _ _ => .ok "dp_1"
    DataPool := fun t _ => pool t
    ModifyDataPool := fun _ _ => .ok ()
    DeleteDataPool := fun _ _ => .ok ()
    CreateSnowflakeDataSource := fun _ _ =>
      .ok (CreateSnowflakeDataSourceResponse.DataSourceResponse "ds_1")
    CreateHttpDataSource := fun _ _ => .ok "ds_1"
    CreateS3DataSource := fun _ _ => .ok "ds_1"
    DataSource := fun t _ => source t
    ModifySnowflakeDataSource := fun _ _ => .ok ()
    DeleteDataSource := fun _ _ => .ok () }

/-- Pool reads that succeed `k` times and then fail with the error text `e`. -/
def poolReadsThenError (k : Nat) (e : String) : Nat → Except String DataPoolResponse :=
  fun t => if t < k then .ok (samplePool "LIVE") else .error e

/-- Source reads that always fail. -/
def noSourceReads : Nat → Except String DataSourceResponse :=
  fun _ => .error "unused"

/-- Whether read `k` of a Data Pool wait that starts after the logged `calls`
succeeds with a status among `allowed`. -/
def poolStatusIn (c : Client) (calls : List RemoteCall) (id : String) (k : Nat)
    (allowed : List String) : Bool :=
  match c.DataPool (calls.length + k) id with
  | .ok resp => decide (resp.Status ∈ allowed)
  | .error _ => false

/-- Whether read `k` of a Data Source wait that starts after the logged `calls`
succeeds with a status among `allowed`. -/
def sourceStatusIn (c : Client) (calls : List RemoteCall) (id : String) (k : Nat)
    (allowed : List String) : Bool :=
  match c.DataSource (calls.length + k) id with
  | .ok resp => decide (resp.Status ∈ allowed)
  | .error _ => false

/-- An SDK whose `d.Set` accepts every value and whose Unicode case table is the
identity outside ASCII. -/
def sampleSdk : Sdk :=
  { unicodeToUpper := fun ch => ch
    setError := fun _ _ => none
    unexpectedStateError := fun s => "unexpected state '" ++ s ++ "'"
    timeoutError := fun s => "timeout while waiting (last state: '" ++ s ++ "')" }

/-- Pool reads that return the statuses of the list in turn, and fail afterwards. -/
def poolReadsOf (statuses : List String) : Nat → Except String DataPoolResponse :=
  fun t => match statuses.get? t with
    | some s => .ok (samplePool s)
    | none => .error "script exhausted"

/-- Resource data with the given id, attributes and changed keys, and a timeout
of 20 minutes, the default of the SDK, for both operations. -/
def sampleData (id : String) (attrs : List (String × Value)) (changed : List String) :
    ResourceData :=
  { id := id, attrs := attrs, changed := changed, Timeout := fun _ => 20 * Minute }

/-- The keys that `resourceDataSourceRead` writes before it dispatches on the
returned type, in the order of the writes. -/
def commonKeys : List String :=
  ["unique_name", "description", "created_at", "created_by", "modified_at", "modified_by",
    "environment", "account", "type", "status"]

/-- An SDK whose `d.Set` checks the type of the ten common fields, which the
schema declares as strings: a string is accepted, any other value is rejected. -/
def typedSdk : Sdk :=
  { unicodeToUpper := fun ch => ch
    setError := fun key value =>
      match value with
      | .str _ => none
      | _ => if key ∈ commonKeys then some (key ++ ": expected type 'string'") else none
    unexpectedStateError := fun s => "unexpected state '" ++ s ++ "'"
    timeoutError := fun s => "timeout while waiting (last state: '" ++ s ++ "')" }

/-- The state in which `resourceDataSourceRead` dispatches when the read and the
ten common writes succeed: the read is logged, the id is the returned id, and the
common fields hold the returned values (the latest write first). -/
def afterCommonFields (w : World) (response : DataSourceResponse) : World :=
  { d :=
      { id := response.Id
        attrs :=
          ("status", Value.str response.Status) ::
          ("type", Value.str response.Type_) ::
          ("account", Value.str response.AccountId) ::
          ("environment", Value.str response.EnvironmentId) ::
          ("modified_by", Value.str response.ModifiedBy) ::
          ("modified_at", Value.str response.ModifiedAt) ::
          ("created_by", Value.str response.CreatedBy) ::
          ("created_at", Value.str response.CreatedAt) ::
          ("description", Value.str response.Description) ::
          ("unique_name", Value.str response.UniqueName) :: w.d.attrs
        changed := w.d.changed
        Timeout := w.d.Timeout }
    calls := w.calls ++ [RemoteCall.DataSource w.d.id] }

/-- The Snowflake settings record of the worked examples. -/
def sampleSnowflakeSettings : Value :=
  Value.list [Value.map [("account", Value.str "acme"), ("database", Value.str "db"),
    ("warehouse", Value.str "wh"), ("schema", Value.str "public"), ("role", Value.str "r"),
    ("username", Value.str "u"), ("password", Value.str "secret")]]

/-- A Data Pool state in which the description changed: the attributes hold the
declared keys of the Data Pool schema. -/
def changedPoolData : ResourceData :=
  { id := "dp_1"
    attrs := [("unique_name", Value.str "pool"), ("description", Value.str "new text"),
      ("status", Value.str "LIVE"), ("account", Value.str "acc_1"),
      ("environment", Value.str "env_1"), ("data_source", Value.str "ds_1"),
      ("table", Value.str "events"), ("column", Value.list [columnRecord "id" "INT64" false]),
      ("tenant_id", Value.str ""), ("timestamp", Value.str "created_at")]
    changed := ["description"]
    Timeout := fun _ => 20 * Minute }

/-- The attribute keys that the Data Pool schema declares. -/
def dataPoolSchemaKeys : List String :=
  ["unique_name", "description", "status", "account", "environment", "data_source", "table",
    "column", "tenant_id", "timestamp"]

/-- An HTTP Data Source state whose `http_connection_settings` block is present
and whose optional `basic_auth` block was not provided: the settings record holds
the key `basic_auth` with an empty list. -/
def httpDataNoBasicAuth : ResourceData :=
  { id := ""
    attrs := [("unique_name", Value.str "source"), ("description", Value.str ""),
      ("type", Value.str "Http"),
      ("http_connection_settings", Value.list [Value.map [("basic_auth", Value.list [])]]),
      ("table", Value.list [])]
    changed := []
    Timeout := fun _ => 30 * Minute }

/-- An HTTP Data Source state whose `http_connection_settings` block is present
and empty, in the representation in which the SDK hands out the element of such a
block as `nil`. -/
def httpDataEmptyBlock : ResourceData :=
  { id := ""
    attrs := [("unique_name", Value.str "source"), ("description", Value.str ""),
      ("type", Value.str "Http"),
      ("http_connection_settings", Value.list [Value.null]),
      ("table", Value.list [])]
    changed := []
    Timeout := fun _ => 30 * Minute }

/-- An HTTP Data Source state without an `http_connection_settings` block. -/
def httpDataNoSettings : ResourceData :=
  { id := ""
    attrs := [("unique_name", Value.str "source"), ("description", Value.str ""),
      ("type", Value.str "Http"), ("http_connection_settings", Value.list []),
      ("table", Value.list [])]
    changed := []
    Timeout := fun _ => 30 * Minute }

/-- An HTTP Data Source state whose `basic_auth` block gives a username and a
password. -/
def httpDataWithBasicAuth : ResourceData :=
  { id := ""
    attrs := [("unique_name", Value.str "source"), ("description", Value.str ""),
      ("type", Value.str "Http"),
      ("http_connection_settings",
        Value.list [Value.map [("basic_auth",
          Value.list [Value.map [("username", Value.str "u"), ("password", Value.str "p")]])]]),
      ("table", Value.list [])]
    changed := []
    Timeout := fun _ => 30 * Minute }

/-- The local `s3_connection_settings` of the worked example, as stored before
the read. -/
def s3LocalSettings : Value :=
  Value.list [Value.map [("bucket", Value.str "old-bucket"),
    ("aws_access_key_id", Value.str "OLDKEY"),
    ("aws_secret_access_key", Value.str "s3cr3t")]]

/-- An S3 Data Source state holding `s3LocalSettings`. -/
def s3LocalData : ResourceData :=
  { id := "ds_1"
    attrs := [("unique_name", Value.str "source"), ("description", Value.str ""),
      ("type", Value.str "S3"), ("s3_connection_settings", s3LocalSettings),
      ("table", Value.list [])]
    changed := []
    Timeout := fun _ => 30 * Minute }

/-- A remote API whose Data Source read returns an S3 Data Source with bucket
`new-bucket` and access key id `NEWKEY`, and no tables. -/
def s3RemoteClient : Client :=
  scriptedClient (poolReadsThenError 0 "unused")
    (fun _ => .ok (sampleSource "S3" "CONNECTED"
      (ConnectionSettings.s3 "new-bucket" "NEWKEY") none))

/-- A remote API whose Snowflake create call answers with the failure variant. -/
def snowflakeFailureClient : Client :=
  { scriptedClient (poolReadsThenError 0 "unused") noSourceReads with
    CreateSnowflakeDataSource := fun _ _ => .ok CreateSnowflakeDataSourceResponse.FailureResponse }

/-- A Snowflake Data Source desired state. -/
def snowflakeData : ResourceData :=
  { id := ""
    attrs := [("unique_name", Value.str "source"), ("description", Value.str ""),
      ("type", Value.str "Snowflake"),
      ("snowflake_connection_settings", sampleSnowflakeSettings)]
    changed := []
    Timeout := fun _ => 30 * Minute }

/-- The create input that `snowflakeData` gives. -/
def snowflakeDataInput : CreateSnowflakeDataSourceInput :=
  { UniqueName := some "source", Description := some "",
    ConnectionSettings :=
      { Account := "acme", Database := "db", Warehouse := "wh", Schema := "public",
        Role := "r", Username := "u", Password := "secret" } }

/-- The Data Pool desired state of the scenario of the specification: one column
`id` of type INT64, not nullable, and the timestamp column `created_at`. -/
def poolDesiredData : ResourceData :=
  { id := ""
    attrs := [("unique_name", Value.str "pool"), ("description", Value.str ""),
      ("data_source", Value.str "ds_1"), ("table", Value.str "events"),
      ("column", Value.list [columnRecord "id" "INT64" false]),
      ("tenant_id", Value.str ""), ("timestamp", Value.str "created_at")]
    changed := []
    Timeout := fun _ => 20 * Minute }

/-- The create input that `poolDesiredData` gives. -/
def poolDesiredInput : CreateDataPoolInputV2 :=
  { UniqueName := some "pool", Description := some "", DataSource := "ds_1",
    Table := "events", Timestamp := some "created_at",
    Columns := [{ ColumnName := "id", Type_ := ColumnTypeInt64, IsNullable := false }],
    Tenant := none }

/-- The tables of the worked example: one table `events` with the columns `id`
and `at`. -/
def sampleTables : List TableNode :=
  [{ Name := "events",
     Columns := [{ Name := "id", Type_ := "INT64", IsNullable := false },
       { Name := "at", Type_ := "TIMESTAMP", IsNullable := true }] }]

/-- The timeouts shorter than `2^24` seconds in absolute value.  On these the
`float64` that `timeout.Seconds()` computes still resolves a nanosecond, so
`int(timeout.Seconds())` is the exact quotient truncated toward zero, that is,
`durationSeconds timeout`. -/
def shortTimeout (timeout : Int) : Prop :=
  -(2 ^ 24 * Second) < timeout ∧ timeout < 2 ^ 24 * Second

instance (timeout : Int) : Decidable (shortTimeout timeout) := by
  unfold shortTimeout
  exact inferInstance

/-- Source reads that return an HTTP Data Source with the statuses of the list in
turn, and fail afterwards. -/
def sourceReadsOf (statuses : List String) : Nat → Except String DataSourceResponse :=
  fun t => match statuses.get? t with
    | some s => .ok (sampleSource "Http" s (ConnectionSettings.http none) none)
    | none => .error "script exhausted"

/-! ## Theorems -/

/-! ### The deletion wait -/

/-- Appending one more copy after `k` copies gives `k + 1` copies. -/
theorem replicate_snoc {α : Type} (k : Nat) (a : α) (l : List α) :
    l ++ List.replicate k a ++ [a] = l ++ List.replicate (k + 1) a := by
  rw [List.append_assoc]
  congr 1
  induction k with
  | zero => rfl
  | succ k ih => simp [List.replicate_succ, ih]

/-- While the deadline check does not fire and the reads succeed, the loop moves
on: after `k` such iterations the counter has grown by `k` and `k` reads are
logged. -/
theorem waitForDataPoolDeletionLoop_advance (c : Client) (id : String) (T : Int) :
    ∀ (k n : Nat) (calls : List RemoteCall),
      (∀ j, j < k → ((n + j : Nat) : Int) * 10 ≤ T) →
      (∀ j, j < k → ∃ r, c.DataPool (calls.length + j) id = .ok r) →
      waitForDataPoolDeletionLoop c id T n calls =
        waitForDataPoolDeletionLoop c id T (n + k)
          (calls ++ List.replicate k (RemoteCall.DataPool id)) := by
  intro k
  induction k with
  | zero => intro n calls _ _; simp
  | succ k ih =>
    intro n calls hd hr
    have h0 : ¬ ((n : Int) * 10 > T) := by
      have := hd 0 (Nat.succ_pos k)
      simp at this
      omega
    obtain ⟨r, hr0⟩ := hr 0 (Nat.succ_pos k)
    rw [waitForDataPoolDeletionLoop, if_neg h0]
    simp only [Nat.add_zero] at hr0
    rw [hr0]
    simp only
    rw [ih (n + 1) (calls ++ [RemoteCall.DataPool id])]
    · have e1 : n + 1 + k = n + (k + 1) := by omega
      rw [e1, List.append_assoc]
      rfl
    · intro j hj
      have := hd (j + 1) (by omega)
      have e2 : n + 1 + j = n + (j + 1) := by omega
      rw [e2]
      exact this
    · intro j hj
      have := hr (j + 1) (by omega)
      simp only [List.length_append, List.length_singleton]
      have e3 : calls.length + 1 + j = calls.length + (j + 1) := by omega
      rw [e3]
      exact this

/-- The loop stops at the first failing read: if the reads before read `k`
succeed and read `k`, issued before the deadline, fails with the text `e`, the
loop returns after `k + 1` reads, with nil when `e` contains "not found" and with
the prefixed error otherwise. -/
theorem waitForDataPoolDeletionLoop_stops_at_error (c : Client) (id : String) (T : Int)
    (calls : List RemoteCall) (k : Nat) (e : String)
    (hprev : ∀ j, j < k → ∃ r, c.DataPool (calls.length + j) id = .ok r)
    (hk : (k : Int) * 10 ≤ T)
    (hread : c.DataPool (calls.length + k) id = .error e) :
    waitForDataPoolDeletionLoop c id T 0 calls =
      (if Contains e "not found" = true then none
        else some ("error trying to fetch Data Pool: " ++ e),
        calls ++ List.replicate (k + 1) (RemoteCall.DataPool id)) := by
  rw [waitForDataPoolDeletionLoop_advance c id _ k 0 calls
    (by intro j hj; have : ((0 + j : Nat) : Int) ≤ (k : Int) := by omega
        omega) hprev]
  rw [waitForDataPoolDeletionLoop]
  have hk2 : ¬ (((0 + k : Nat) : Int) * 10 > T) := by
    simp only [Nat.zero_add]; omega
  rw [if_neg hk2]
  simp only [List.length_append, List.length_replicate, hread]
  rw [← replicate_snoc]
  by_cases hnf : Contains e "not found" = true
  · simp [hnf]
  · simp [hnf]

/-- The loop leaves through the deadline check: if the check fires for `m` and
for no smaller counter, and the `m` reads before it succeed, the loop returns nil
after exactly `m` reads. -/
theorem waitForDataPoolDeletionLoop_stops_at_deadline (c : Client) (id : String) (T : Int)
    (calls : List RemoteCall) (m : Nat) (hm : (m : Int) * 10 > T)
    (hlt : ∀ j, j < m → (j : Int) * 10 ≤ T)
    (hreads : ∀ j, j < m → ∃ r, c.DataPool (calls.length + j) id = .ok r) :
    waitForDataPoolDeletionLoop c id T 0 calls =
      (none, calls ++ List.replicate m (RemoteCall.DataPool id)) := by
  rw [waitForDataPoolDeletionLoop_advance c id _ m 0 calls
    (by intro j hj; have := hlt j hj; simpa using this) hreads]
  rw [waitForDataPoolDeletionLoop]
  have hm2 : (((0 + m : Nat) : Int) * 10 > T) := by
    simp only [Nat.zero_add]; exact hm
  rw [if_pos hm2]

/-- C1: if the reads before read `k` succeed, read `k` is issued before the
deadline (for a non-negative timeout the first read always is) and fails with an
error containing "not found", then `waitForDataPoolDeletion` returns nil right
after that read: the log holds exactly those `k + 1` reads. -/
theorem waitForDataPoolDeletion_not_found (c : Client) (calls : List RemoteCall) (id : String)
    (timeout : Int) (k : Nat) (e : String)
    (hprev : ∀ j, j < k → ∃ r, c.DataPool (calls.length + j) id = .ok r)
    (hdeadline : (0 ≤ timeout ∧ k = 0) ∨ (k : Int) * 10 ≤ durationSeconds timeout)
    (hread : c.DataPool (calls.length + k) id = .error e)
    (hnf : Contains e "not found" = true) :
    waitForDataPoolDeletion c calls id timeout =
      (none, calls ++ List.replicate (k + 1) (RemoteCall.DataPool id)) := by
  have hk : (k : Int) * 10 ≤ durationSeconds timeout := by
    rcases hdeadline with ⟨h0, hk0⟩ | h
    · subst hk0
      have : 0 ≤ durationSeconds timeout := by
        unfold durationSeconds Second
        exact Int.tdiv_nonneg h0 (by decide)
      simpa using this
    · exact h
  unfold waitForDataPoolDeletion
  rw [waitForDataPoolDeletionLoop_advance c id _ k 0 calls
    (by intro j hj; have : ((0 + j : Nat) : Int) ≤ (k : Int) := by omega
        omega) hprev]
  rw [waitForDataPoolDeletionLoop]
  have hk2 : ¬ (((0 + k : Nat) : Int) * 10 > durationSeconds timeout) := by
    simp only [Nat.zero_add]; omega
  rw [if_neg hk2]
  simp only [List.length_append, List.length_replicate, hread, hnf, if_true]
  rw [replicate_snoc]

/-- Worked example for C1: two reads find the Data Pool, the third fails with
"Data Pool dp_1 not found"; the wait returns nil after exactly three reads. -/
theorem waitForDataPoolDeletion_not_found_witness :
    waitForDataPoolDeletion
        (scriptedClient (poolReadsThenError 2 "Data Pool dp_1 not found") noSourceReads)
        [] "dp_1" (20 * Minute) =
      (none, [RemoteCall.DataPool "dp_1", RemoteCall.DataPool "dp_1",
        RemoteCall.DataPool "dp_1"]) :=
  waitForDataPoolDeletion_not_found
    (scriptedClient (poolReadsThenError 2 "Data Pool dp_1 not found") noSourceReads)
    [] "dp_1" (20 * Minute) 2 "Data Pool dp_1 not found"
    (by intro j hj; interval_cases j <;> exact ⟨_, rfl⟩)
    (Or.inr (by decide)) rfl (by decide)

/-- C2: if the reads before read `k` succeed, read `k` is issued before the
deadline and fails with an error text `e` that does not contain "not found",
then `waitForDataPoolDeletion` stops at that read (the log holds exactly those
`k + 1` reads) and returns the error "error trying to fetch Data Pool: " followed
by `e`. -/
theorem waitForDataPoolDeletion_read_error (c : Client) (calls : List RemoteCall) (id : String)
    (timeout : Int) (k : Nat) (e : String)
    (hprev : ∀ j, j < k → ∃ r, c.DataPool (calls.length + j) id = .ok r)
    (hdeadline : (k : Int) * 10 ≤ durationSeconds timeout)
    (hread : c.DataPool (calls.length + k) id = .error e)
    (hnf : Contains e "not found" = false) :
    waitForDataPoolDeletion c calls id timeout =
      (some ("error trying to fetch Data Pool: " ++ e),
        calls ++ List.replicate (k + 1) (RemoteCall.DataPool id)) := by
  unfold waitForDataPoolDeletion
  rw [waitForDataPoolDeletionLoop_advance c id _ k 0 calls
    (by intro j hj; have : ((0 + j : Nat) : Int) ≤ (k : Int) := by omega
        omega) hprev]
  rw [waitForDataPoolDeletionLoop]
  have hk2 : ¬ (((0 + k : Nat) : Int) * 10 > durationSeconds timeout) := by
    simp only [Nat.zero_add]; omega
  rw [if_neg hk2]
  simp only [List.length_append, List.length_replicate, hread, hnf]
  rw [replicate_snoc]
  simp

/-- Worked example for C2: the second read fails with "connection reset"; the wait
returns the prefixed error after exactly two reads. -/
theorem waitForDataPoolDeletion_read_error_witness :
    waitForDataPoolDeletion
        (scriptedClient (poolReadsThenError 1 "connection reset") noSourceReads)
        [] "dp_1" (20 * Minute) =
      (some "error trying to fetch Data Pool: connection reset",
        [RemoteCall.DataPool "dp_1", RemoteCall.DataPool "dp_1"]) :=
  waitForDataPoolDeletion_read_error
    (scriptedClient (poolReadsThenError 1 "connection reset") noSourceReads)
    [] "dp_1" (20 * Minute) 1 "connection reset"
    (by intro j hj; interval_cases j; exact ⟨_, rfl⟩)
    (by decide) rfl (by decide)

/-- The number of ticks whose deadline check `n * 10 > timeoutSeconds` does not
fire. -/
theorem deadline_count (T : Int) :
    ∃ m : Nat, (m : Int) * 10 > T ∧ ∀ j, j < m → (j : Int) * 10 ≤ T := by
  by_cases hT : T < 0
  · exact ⟨0, by omega, by intro j hj; omega⟩
  · refine ⟨(T / 10).toNat + 1, ?_, ?_⟩
    · have : ((T / 10).toNat : Int) = T / 10 := Int.toNat_of_nonneg (by omega)
      push_cast
      omega
    · intro j hj
      have : ((T / 10).toNat : Int) = T / 10 := Int.toNat_of_nonneg (by omega)
      have hj2 : (j : Int) ≤ T / 10 := by omega
      omega

/-- C3: let `T` be the value of `timeoutSeconds`, whatever the conversion
`int(timeout.Seconds())` yields.  If every read issued before the deadline
succeeds, the loop of `waitForDataPoolDeletion` returns nil, not a timeout error:
it issues exactly the reads whose deadline check `n * 10 > timeoutSeconds` does
not fire, and returns nil at the first tick on which the check fires.  For every
timeout shorter than `2^24` seconds, whose whole seconds are `T`, this is the
result of `waitForDataPoolDeletion`. -/
theorem waitForDataPoolDeletion_deadline_is_success (c : Client) (calls : List RemoteCall)
    (id : String) (T : Int)
    (hreads : ∀ k : Nat, (k : Int) * 10 ≤ T →
      ∃ r, c.DataPool (calls.length + k) id = .ok r) :
    ∃ m : Nat, (m : Int) * 10 > T ∧
      (∀ j, j < m → (j : Int) * 10 ≤ T) ∧
      waitForDataPoolDeletionLoop c id T 0 calls =
        (none, calls ++ List.replicate m (RemoteCall.DataPool id)) ∧
      ∀ timeout, shortTimeout timeout → durationSeconds timeout = T →
        waitForDataPoolDeletion c calls id timeout =
          (none, calls ++ List.replicate m (RemoteCall.DataPool id)) := by
  obtain ⟨m, hm, hlt⟩ := deadline_count T
  have hloop := waitForDataPoolDeletionLoop_stops_at_deadline c id T calls m hm hlt
    (fun j hj => hreads j (hlt j hj))
  refine ⟨m, hm, hlt, hloop, ?_⟩
  intro timeout _ hT
  unfold waitForDataPoolDeletion
  rw [hT, hloop]

/-- Worked example for C3: a timeout of 25 seconds and a Data Pool that never
disappears; the wait returns nil after the reads of the ticks 0, 1 and 2. -/
theorem waitForDataPoolDeletion_deadline_is_success_witness :
    waitForDataPoolDeletion
        (scriptedClient (fun _ => .ok (samplePool "LIVE")) noSourceReads)
        [] "dp_1" (25 * Second) =
      (none, [RemoteCall.DataPool "dp_1", RemoteCall.DataPool "dp_1",
        RemoteCall.DataPool "dp_1"]) := by
  obtain ⟨m, hm, hlt, _, hwait⟩ := waitForDataPoolDeletion_deadline_is_success
    (scriptedClient (fun _ => .ok (samplePool "LIVE")) noSourceReads)
    [] "dp_1" 25 (fun _ _ => ⟨_, rfl⟩)
  have hm3 : m = 3 := by
    by_cases h : 3 < m
    · have := hlt 3 h
      omega
    · omega
  subst hm3
  exact hwait (25 * Second) ⟨by decide, by decide⟩ (by decide)

/-! ### The status wait -/

section PollLoop

variable (sdk : Sdk) (conf : StateChangeConf) (refresh : Nat → Except String String)

/-- Unfolding of the poll loop when the deadline has passed. -/
theorem pollLoop_timeout (k occ : Nat) (last : String) (h : ¬ issuedBeforeDeadline conf k) :
    pollLoop sdk conf refresh k occ last = (some (sdk.timeoutError last), k) := by
  rw [pollLoop, dif_neg h]

/-- Unfolding of the poll loop on a failed read. -/
theorem pollLoop_error (k occ : Nat) (last err : String) (h : issuedBeforeDeadline conf k)
    (hr : refresh k = .error err) :
    pollLoop sdk conf refresh k occ last = (some err, k + 1) := by
  rw [pollLoop, dif_pos h]
  simp only [hr]

/-- Unfolding of the poll loop on the target status that completes the stability
count. -/
theorem pollLoop_done (k occ : Nat) (last state : String) (h : issuedBeforeDeadline conf k)
    (hr : refresh k = .ok state) (ht : state ∈ conf.Target)
    (hocc : occ + 1 ≥ conf.ContinuousTargetOccurence) :
    pollLoop sdk conf refresh k occ last = (none, k + 1) := by
  rw [pollLoop, dif_pos h]
  simp only [hr, ht, hocc, if_true]

/-- Unfolding of the poll loop on a target status that does not yet complete the
stability count. -/
theorem pollLoop_target (k occ : Nat) (last state : String) (h : issuedBeforeDeadline conf k)
    (hr : refresh k = .ok state) (ht : state ∈ conf.Target)
    (hocc : ¬ occ + 1 ≥ conf.ContinuousTargetOccurence) :
    pollLoop sdk conf refresh k occ last = pollLoop sdk conf refresh (k + 1) (occ + 1) state := by
  rw [pollLoop, dif_pos h]
  simp only [hr, ht, hocc, if_true, if_false]

/-- Unfolding of the poll loop on a pending status. -/
theorem pollLoop_pending (k occ : Nat) (last state : String) (h : issuedBeforeDeadline conf k)
    (hr : refresh k = .ok state) (ht : state ∉ conf.Target) (hp : state ∈ conf.Pending) :
    pollLoop sdk conf refresh k occ last = pollLoop sdk conf refresh (k + 1) 0 state := by
  rw [pollLoop, dif_pos h]
  simp only [hr, ht, hp, if_true, if_false]

/-- Unfolding of the poll loop on a status that is neither target nor pending. -/
theorem pollLoop_unexpected (k occ : Nat) (last state : String)
    (h : issuedBeforeDeadline conf k)
    (hr : refresh k = .ok state) (ht : state ∉ conf.Target) (hp : state ∉ conf.Pending) :
    pollLoop sdk conf refresh k occ last = (some (sdk.unexpectedStateError state), k + 1) := by
  rw [pollLoop, dif_pos h]
  simp only [hr, ht, hp, if_false]

/-- A read issued before the deadline is preceded only by reads issued before the
deadline. -/
theorem issuedBeforeDeadline_mono {k m : Nat} (hkm : k ≤ m)
    (h : issuedBeforeDeadline conf m) : issuedBeforeDeadline conf k := by
  obtain ⟨hd, hm⟩ := h
  refine ⟨hd, le_trans ?_ hm⟩
  have : ((k : Int) + 1) ≤ (m : Int) + 1 := by omega
  exact Int.mul_le_mul_of_nonneg_right this (le_of_lt hd)

/-- Soundness of a successful poll: it ended at some read `m`, issued before the
deadline; every read from `k` to `m` succeeded with a pending or target status;
and the reads of the window of `ContinuousTargetOccurence` reads ending at `m`
that lie at or after `k` returned a target status, the window reaching back at
most `occ` reads before `k`. -/
theorem pollLoop_success_sound :
    ∀ (k occ : Nat) (last : String) (n : Nat),
      pollLoop sdk conf refresh k occ last = (none, n) →
      ∃ m, n = m + 1 ∧ k ≤ m ∧ issuedBeforeDeadline conf m ∧
        (∀ j, k ≤ j → j ≤ m →
          ∃ s, refresh j = .ok s ∧ (s ∈ conf.Target ∨ s ∈ conf.Pending)) ∧
        (∀ j, k ≤ j → j ≤ m → m < j + conf.ContinuousTargetOccurence →
          ∃ s, refresh j = .ok s ∧ s ∈ conf.Target) ∧
        k + conf.ContinuousTargetOccurence ≤ m + 1 + occ := by
  intro k occ last
  induction k, occ, last using pollLoop.induct sdk conf refresh with
  | case1 k occ last h err hr =>
    intro n hn
    rw [pollLoop_error sdk conf refresh k occ last err h hr] at hn
    simp at hn
  | case2 k occ last h state hr ht hocc =>
    intro n hn
    rw [pollLoop_done sdk conf refresh k occ last state h hr ht hocc] at hn
    simp only [Prod.mk.injEq, true_and] at hn
    refine ⟨k, hn.symm, le_refl k, h, ?_, ?_, by omega⟩
    · intro j hj1 hj2
      have : j = k := by omega
      subst this
      exact ⟨state, hr, Or.inl ht⟩
    · intro j hj1 hj2 _
      have : j = k := by omega
      subst this
      exact ⟨state, hr, ht⟩
  | case3 k occ last h state hr ht hocc ih =>
    intro n hn
    rw [pollLoop_target sdk conf refresh k occ last state h hr ht hocc] at hn
    obtain ⟨m, hnm, hkm, hm, hgood, htgt, hwin⟩ := ih n hn
    refine ⟨m, hnm, by omega, hm, ?_, ?_, by omega⟩
    · intro j hj1 hj2
      by_cases hjk : j = k
      · subst hjk
        exact ⟨state, hr, Or.inl ht⟩
      · exact hgood j (by omega) hj2
    · intro j hj1 hj2 hj3
      by_cases hjk : j = k
      · subst hjk
        exact ⟨state, hr, ht⟩
      · exact htgt j (by omega) hj2 hj3
  | case4 k occ last h state hr ht hp ih =>
    intro n hn
    rw [pollLoop_pending sdk conf refresh k occ last state h hr ht hp] at hn
    obtain ⟨m, hnm, hkm, hm, hgood, htgt, hwin⟩ := ih n hn
    refine ⟨m, hnm, by omega, hm, ?_, ?_, by omega⟩
    · intro j hj1 hj2
      by_cases hjk : j = k
      · subst hjk
        exact ⟨state, hr, Or.inr hp⟩
      · exact hgood j (by omega) hj2
    · intro j hj1 hj2 hj3
      exact htgt j (by omega) hj2 hj3
  | case5 k occ last h state hr ht hp =>
    intro n hn
    rw [pollLoop_unexpected sdk conf refresh k occ last state h hr ht hp] at hn
    simp at hn
  | case6 k occ last h =>
    intro n hn
    rw [pollLoop_timeout sdk conf refresh k occ last h] at hn
    simp at hn

/-- Completeness of the poll: if read `m` is issued before the deadline, every
read up to `m` succeeds with a pending or target status, and the window of
`ContinuousTargetOccurence` reads ending at `m` returned target statuses, then
the poll started at `k ≤ m` with at least the passed part of the window counted
succeeds. -/
theorem pollLoop_success_complete (m : Nat) (hN : 1 ≤ conf.ContinuousTargetOccurence)
    (hm : issuedBeforeDeadline conf m)
    (hgood : ∀ j, j ≤ m → ∃ s, refresh j = .ok s ∧ (s ∈ conf.Target ∨ s ∈ conf.Pending))
    (htgt : ∀ j, j ≤ m → m < j + conf.ContinuousTargetOccurence →
      ∃ s, refresh j = .ok s ∧ s ∈ conf.Target) :
    ∀ (d k occ : Nat) (last : String), m + 1 - k = d → k ≤ m →
      k + conf.ContinuousTargetOccurence ≤ m + 1 + occ →
      (pollLoop sdk conf refresh k occ last).1 = none := by
  intro d
  induction d with
  | zero => intro k occ last hd hk _; omega
  | succ d ih =>
    intro k occ last hd hk hocc
    have hk' := issuedBeforeDeadline_mono conf hk hm
    obtain ⟨s, hs, hsg⟩ := hgood k hk
    by_cases ht : s ∈ conf.Target
    · by_cases hdone : occ + 1 ≥ conf.ContinuousTargetOccurence
      · rw [pollLoop_done sdk conf refresh k occ last s hk' hs ht hdone]
      · rw [pollLoop_target sdk conf refresh k occ last s hk' hs ht hdone]
        exact ih (k + 1) (occ + 1) s (by omega) (by omega) (by omega)
    · have hp : s ∈ conf.Pending := by
        rcases hsg with h | h
        · exact absurd h ht
        · exact h
      have hnw : ¬ (m < k + conf.ContinuousTargetOccurence) := by
        intro hw
        obtain ⟨s', hs', hs't⟩ := htgt k hk hw
        rw [hs] at hs'
        cases hs'
        exact ht hs't
      rw [pollLoop_pending sdk conf refresh k occ last s hk' hs ht hp]
      exact ih (k + 1) 0 s (by omega) (by omega) (by omega)

end PollLoop

section PollLoopReach

variable (sdk : Sdk) (conf : StateChangeConf) (refresh : Nat → Except String String)

/-- As long as the reads succeed with pending or target statuses and no window
of `ContinuousTargetOccurence` consecutive target statuses has been completed,
the poll is still running: it is about to issue read `k`. -/
theorem pollLoop_reaches (hN : 1 ≤ conf.ContinuousTargetOccurence) :
    ∀ k : Nat, (∀ j, j < k → issuedBeforeDeadline conf j) →
      (∀ j, j < k → ∃ s, refresh j = .ok s ∧ (s ∈ conf.Target ∨ s ∈ conf.Pending)) →
      (∀ m, m < k → conf.ContinuousTargetOccurence ≤ m + 1 →
        ¬ (∀ j, j ≤ m → m < j + conf.ContinuousTargetOccurence →
          ∃ s, refresh j = .ok s ∧ s ∈ conf.Target)) →
      ∃ occ last, pollLoop sdk conf refresh 0 0 "" = pollLoop sdk conf refresh k occ last ∧
        occ ≤ k ∧ occ < conf.ContinuousTargetOccurence ∧
        (∀ j, j < k → k ≤ j + occ → ∃ s, refresh j = .ok s ∧ s ∈ conf.Target) := by
  intro k
  induction k with
  | zero =>
    intro _ _ _
    exact ⟨0, "", rfl, le_refl 0, by omega, by intro j hj; omega⟩
  | succ k ih =>
    intro hiss hgood hrun
    obtain ⟨occ, last, heq, hle, hlt, hocc⟩ :=
      ih (fun j hj => hiss j (by omega)) (fun j hj => hgood j (by omega))
        (fun m hm => hrun m (by omega))
    obtain ⟨s, hs, hsg⟩ := hgood k (by omega)
    have hk := hiss k (by omega)
    by_cases ht : s ∈ conf.Target
    · by_cases hdone : occ + 1 ≥ conf.ContinuousTargetOccurence
      · exfalso
        refine hrun k (by omega) (by omega) ?_
        intro j hj1 hj2
        by_cases hjk : j = k
        · subst hjk
          exact ⟨s, hs, ht⟩
        · exact hocc j (by omega) (by omega)
      · refine ⟨occ + 1, s, ?_, by omega, by omega, ?_⟩
        · rw [heq, pollLoop_target sdk conf refresh k occ last s hk hs ht hdone]
        · intro j hj1 hj2
          by_cases hjk : j = k
          · subst hjk
            exact ⟨s, hs, ht⟩
          · exact hocc j (by omega) (by omega)
    · have hp : s ∈ conf.Pending := by
        rcases hsg with h | h
        · exact absurd h ht
        · exact h
      refine ⟨0, s, ?_, by omega, by omega, ?_⟩
      · rw [heq, pollLoop_pending sdk conf refresh k occ last s hk hs ht hp]
      · intro j hj1 hj2
        omega

/-- The poll succeeds exactly when some window of `ContinuousTargetOccurence`
consecutive reads, the last of them issued before the deadline, returned target
statuses, and every read before the end of that window succeeded with a pending
or target status. -/
theorem WaitForStateContext_success_iff (hN : 1 ≤ conf.ContinuousTargetOccurence) :
    (WaitForStateContext sdk conf refresh).1 = none ↔
      ∃ m, conf.ContinuousTargetOccurence ≤ m + 1 ∧ issuedBeforeDeadline conf m ∧
        (∀ j, j ≤ m → ∃ s, refresh j = .ok s ∧ (s ∈ conf.Target ∨ s ∈ conf.Pending)) ∧
        (∀ j, j ≤ m → m < j + conf.ContinuousTargetOccurence →
          ∃ s, refresh j = .ok s ∧ s ∈ conf.Target) := by
  unfold WaitForStateContext
  constructor
  · intro h
    have hpair : pollLoop sdk conf refresh 0 0 "" =
        (none, (pollLoop sdk conf refresh 0 0 "").2) := by
      rw [← h]
    obtain ⟨m, _, _, hm, hgood, htgt, hwin⟩ :=
      pollLoop_success_sound sdk conf refresh 0 0 "" _ hpair
    exact ⟨m, by omega, hm, fun j hj => hgood j (Nat.zero_le j) hj,
      fun j hj hw => htgt j (Nat.zero_le j) hj hw⟩
  · rintro ⟨m, hNm, hm, hgood, htgt⟩
    exact pollLoop_success_complete sdk conf refresh m hN hm hgood htgt (m + 1) 0 0 ""
      (by omega) (Nat.zero_le m) (by omega)

/-- A status outside pending ∪ target aborts the poll at that read: if read `k`
is issued before the deadline, the poll is still running when it is issued, and
it returns such a status, the poll fails with `k + 1` reads issued. -/
theorem WaitForStateContext_unexpected (hN : 1 ≤ conf.ContinuousTargetOccurence)
    (k : Nat) (state : String) (hk : issuedBeforeDeadline conf k)
    (hgood : ∀ j, j < k → ∃ s, refresh j = .ok s ∧ (s ∈ conf.Target ∨ s ∈ conf.Pending))
    (hrun : ∀ m, m < k → conf.ContinuousTargetOccurence ≤ m + 1 →
        ¬ (∀ j, j ≤ m → m < j + conf.ContinuousTargetOccurence →
          ∃ s, refresh j = .ok s ∧ s ∈ conf.Target))
    (hr : refresh k = .ok state) (ht : state ∉ conf.Target) (hp : state ∉ conf.Pending) :
    WaitForStateContext sdk conf refresh = (some (sdk.unexpectedStateError state), k + 1) := by
  obtain ⟨occ, last, heq, _, _, _⟩ :=
    pollLoop_reaches sdk conf refresh hN k
      (fun j hj => issuedBeforeDeadline_mono conf (by omega) hk) hgood hrun
  unfold WaitForStateContext
  rw [heq, pollLoop_unexpected sdk conf refresh k occ last state hk hr ht hp]

end PollLoopReach

section StatusWaits

variable (sdk : Sdk) (c : Client) (calls : List RemoteCall) (id : String)

/-- With stability count 3, the poll succeeds exactly when three consecutive
reads `i`, `i + 1`, `i + 2` return target statuses, the last of them issued
before the deadline, and all reads before `i` succeed with pending or target
statuses. -/
theorem WaitForStateContext_three (conf : StateChangeConf)
    (refresh : Nat → Except String String) (h3 : conf.ContinuousTargetOccurence = 3) :
    (WaitForStateContext sdk conf refresh).1 = none ↔
      ∃ i, issuedBeforeDeadline conf (i + 2) ∧
        (∀ j, j < i → ∃ s, refresh j = .ok s ∧ (s ∈ conf.Target ∨ s ∈ conf.Pending)) ∧
        (∃ s, refresh i = .ok s ∧ s ∈ conf.Target) ∧
        (∃ s, refresh (i + 1) = .ok s ∧ s ∈ conf.Target) ∧
        (∃ s, refresh (i + 2) = .ok s ∧ s ∈ conf.Target) := by
  rw [WaitForStateContext_success_iff sdk conf refresh (by omega), h3]
  constructor
  · rintro ⟨m, hm3, hm, hgood, htgt⟩
    obtain ⟨i, rfl⟩ : ∃ i, m = i + 2 := ⟨m - 2, by omega⟩
    exact ⟨i, hm, fun j hj => hgood j (by omega), htgt i (by omega) (by omega),
      htgt (i + 1) (by omega) (by omega), htgt (i + 2) (by omega) (by omega)⟩
  · rintro ⟨i, hm, hgood, h0, h1, h2⟩
    have htgt : ∀ j, j ≤ i + 2 → i + 2 < j + 3 →
        ∃ s, refresh j = .ok s ∧ s ∈ conf.Target := by
      intro j hj1 hj2
      have hj : j = i ∨ j = i + 1 ∨ j = i + 2 := by omega
      rcases hj with rfl | rfl | rfl
      · exact h0
      · exact h1
      · exact h2
    refine ⟨i + 2, by omega, hm, ?_, htgt⟩
    intro j hj
    by_cases hji : j < i
    · exact hgood j hji
    · obtain ⟨s, hs, hst⟩ := htgt j hj (by omega)
      exact ⟨s, hs, Or.inl hst⟩

/-- The `Refresh` closure of `waitForDataPoolLive` yields a status among `allowed`
exactly when the read succeeds with such a status. -/
theorem dataPoolRefresh_ok_iff (k : Nat) (allowed : List String) :
    (∃ s, dataPoolRefresh c calls id k = .ok s ∧ s ∈ allowed) ↔
      poolStatusIn c calls id k allowed = true := by
  unfold dataPoolRefresh poolStatusIn
  cases c.DataPool (calls.length + k) id with
  | error e => simp
  | ok r => simp

/-- The `Refresh` closure of `waitForDataSourceConnected` yields a status among
`allowed` exactly when the read succeeds with such a status. -/
theorem dataSourceRefresh_ok_iff (k : Nat) (allowed : List String) :
    (∃ s, dataSourceRefresh c calls id k = .ok s ∧ s ∈ allowed) ↔
      sourceStatusIn c calls id k allowed = true := by
  unfold dataSourceRefresh sourceStatusIn
  cases c.DataSource (calls.length + k) id with
  | error e => simp
  | ok r => simp

/-- Function `waitForDataPoolLive` returns nil exactly when the poller succeeds. -/
theorem waitForDataPoolLive_fst (timeout : Int) :
    (waitForDataPoolLive sdk c calls id timeout).1 = none ↔
      (WaitForStateContext sdk (waitForDataPoolLiveConf timeout)
        (dataPoolRefresh c calls id)).1 = none := by
  unfold waitForDataPoolLive
  rcases WaitForStateContext sdk (waitForDataPoolLiveConf timeout)
    (dataPoolRefresh c calls id) with ⟨_ | e, n⟩ <;> simp

/-- Function `waitForDataSourceConnected` returns nil exactly when the poller
succeeds. -/
theorem waitForDataSourceConnected_fst (timeout : Int) :
    (waitForDataSourceConnected sdk c calls id timeout).1 = none ↔
      (WaitForStateContext sdk (waitForDataSourceConnectedConf timeout)
        (dataSourceRefresh c calls id)).1 = none := by
  unfold waitForDataSourceConnected
  rcases WaitForStateContext sdk (waitForDataSourceConnectedConf timeout)
    (dataSourceRefresh c calls id) with ⟨_ | e, n⟩ <;> simp

end StatusWaits

section StatusWaitsMain

variable (sdk : Sdk) (c : Client) (calls : List RemoteCall) (id : String)

/-- With stability count 3: a status outside pending ∪ target, read while the
poll is still running, aborts the poll at that read. -/
theorem WaitForStateContext_unexpected_three (conf : StateChangeConf)
    (refresh : Nat → Except String String) (h3 : conf.ContinuousTargetOccurence = 3)
    (k : Nat) (state : String) (hk : issuedBeforeDeadline conf k)
    (hgood : ∀ j, j < k → ∃ s, refresh j = .ok s ∧ (s ∈ conf.Target ∨ s ∈ conf.Pending))
    (hrun : ∀ i, i + 2 < k → ¬ ((∃ s, refresh i = .ok s ∧ s ∈ conf.Target) ∧
      (∃ s, refresh (i + 1) = .ok s ∧ s ∈ conf.Target) ∧
      (∃ s, refresh (i + 2) = .ok s ∧ s ∈ conf.Target)))
    (hr : refresh k = .ok state) (ht : state ∉ conf.Target) (hp : state ∉ conf.Pending) :
    WaitForStateContext sdk conf refresh = (some (sdk.unexpectedStateError state), k + 1) := by
  refine WaitForStateContext_unexpected sdk conf refresh (by omega) k state hk hgood ?_ hr ht hp
  intro m hm hm3 hall
  rw [h3] at hm3 hall
  obtain ⟨i, rfl⟩ : ∃ i, m = i + 2 := ⟨m - 2, by omega⟩
  exact hrun i hm ⟨hall i (by omega) (by omega), hall (i + 1) (by omega) (by omega),
    hall (i + 2) (by omega) (by omega)⟩

/-- The two status waits in terms of the poller's own deadline predicate: success
exactly on three consecutive target reads, the last issued before the deadline,
after pending or target reads only; and an error at the first read, issued while
the wait is running, whose status is neither pending nor target. -/
theorem status_waits_in_poller_terms (timeout : Int) :
    ((waitForDataPoolLive sdk c calls id timeout).1 = none ↔
      ∃ i, issuedBeforeDeadline (waitForDataPoolLiveConf timeout) (i + 2) ∧
        (∀ j, j < i → poolStatusIn c calls id j ["CREATED", "PENDING", "LIVE"] = true) ∧
        poolStatusIn c calls id i ["LIVE"] = true ∧
        poolStatusIn c calls id (i + 1) ["LIVE"] = true ∧
        poolStatusIn c calls id (i + 2) ["LIVE"] = true) ∧
    (∀ (k : Nat) (resp : DataPoolResponse),
      issuedBeforeDeadline (waitForDataPoolLiveConf timeout) k →
      (∀ j, j < k → poolStatusIn c calls id j ["CREATED", "PENDING", "LIVE"] = true) →
      (∀ i, i + 2 < k → ¬ (poolStatusIn c calls id i ["LIVE"] = true ∧
        poolStatusIn c calls id (i + 1) ["LIVE"] = true ∧
        poolStatusIn c calls id (i + 2) ["LIVE"] = true)) →
      c.DataPool (calls.length + k) id = .ok resp →
      resp.Status ∉ ["CREATED", "PENDING", "LIVE"] →
      waitForDataPoolLive sdk c calls id timeout =
        (some ("error waiting for Data Pool to be LIVE: " ++
            sdk.unexpectedStateError resp.Status),
          calls ++ List.replicate (k + 1) (RemoteCall.DataPool id))) ∧
    ((waitForDataSourceConnected sdk c calls id timeout).1 = none ↔
      ∃ i, issuedBeforeDeadline (waitForDataSourceConnectedConf timeout) (i + 2) ∧
        (∀ j, j < i →
          sourceStatusIn c calls id j ["CREATED", "CONNECTING", "CONNECTED"] = true) ∧
        sourceStatusIn c calls id i ["CONNECTED"] = true ∧
        sourceStatusIn c calls id (i + 1) ["CONNECTED"] = true ∧
        sourceStatusIn c calls id (i + 2) ["CONNECTED"] = true) ∧
    (∀ (k : Nat) (resp : DataSourceResponse),
      issuedBeforeDeadline (waitForDataSourceConnectedConf timeout) k →
      (∀ j, j < k →
        sourceStatusIn c calls id j ["CREATED", "CONNECTING", "CONNECTED"] = true) →
      (∀ i, i + 2 < k → ¬ (sourceStatusIn c calls id i ["CONNECTED"] = true ∧
        sourceStatusIn c calls id (i + 1) ["CONNECTED"] = true ∧
        sourceStatusIn c calls id (i + 2) ["CONNECTED"] = true)) →
      c.DataSource (calls.length + k) id = .ok resp →
      resp.Status ∉ ["CREATED", "CONNECTING", "CONNECTED"] →
      waitForDataSourceConnected sdk c calls id timeout =
        (some ("error waiting for Data Source to be CONNECTED: " ++
            sdk.unexpectedStateError resp.Status),
          calls ++ List.replicate (k + 1) (RemoteCall.DataSource id))) := by
  have hpoolGood : ∀ j, (∃ s, dataPoolRefresh c calls id j = .ok s ∧
      (s ∈ (waitForDataPoolLiveConf timeout).Target ∨
        s ∈ (waitForDataPoolLiveConf timeout).Pending)) ↔
      poolStatusIn c calls id j ["CREATED", "PENDING", "LIVE"] = true := by
    intro j
    rw [← dataPoolRefresh_ok_iff]
    simp only [waitForDataPoolLiveConf, DataPoolStatusCreated, DataPoolStatusPending,
      DataPoolStatusLive, List.mem_cons, List.mem_singleton, List.not_mem_nil, or_false]
    constructor
    · rintro ⟨s, hs, h | h | h⟩
      · exact ⟨s, hs, Or.inr (Or.inr h)⟩
      · exact ⟨s, hs, Or.inl h⟩
      · exact ⟨s, hs, Or.inr (Or.inl h)⟩
    · rintro ⟨s, hs, h | h | h⟩
      · exact ⟨s, hs, Or.inr (Or.inl h)⟩
      · exact ⟨s, hs, Or.inr (Or.inr h)⟩
      · exact ⟨s, hs, Or.inl h⟩
  have hpoolTgt : ∀ j, (∃ s, dataPoolRefresh c calls id j = .ok s ∧
      s ∈ (waitForDataPoolLiveConf timeout).Target) ↔
      poolStatusIn c calls id j ["LIVE"] = true := by
    intro j
    rw [← dataPoolRefresh_ok_iff]
    rfl
  have hsrcGood : ∀ j, (∃ s, dataSourceRefresh c calls id j = .ok s ∧
      (s ∈ (waitForDataSourceConnectedConf timeout).Target ∨
        s ∈ (waitForDataSourceConnectedConf timeout).Pending)) ↔
      sourceStatusIn c calls id j ["CREATED", "CONNECTING", "CONNECTED"] = true := by
    intro j
    rw [← dataSourceRefresh_ok_iff]
    simp only [waitForDataSourceConnectedConf, DataSourceStatusCreated,
      DataSourceStatusConnecting, DataSourceStatusConnected, List.mem_cons,
      List.mem_singleton, List.not_mem_nil, or_false]
    constructor
    · rintro ⟨s, hs, h | h | h⟩
      · exact ⟨s, hs, Or.inr (Or.inr h)⟩
      · exact ⟨s, hs, Or.inl h⟩
      · exact ⟨s, hs, Or.inr (Or.inl h)⟩
    · rintro ⟨s, hs, h | h | h⟩
      · exact ⟨s, hs, Or.inr (Or.inl h)⟩
      · exact ⟨s, hs, Or.inr (Or.inr h)⟩
      · exact ⟨s, hs, Or.inl h⟩
  have hsrcTgt : ∀ j, (∃ s, dataSourceRefresh c calls id j = .ok s ∧
      s ∈ (waitForDataSourceConnectedConf timeout).Target) ↔
      sourceStatusIn c calls id j ["CONNECTED"] = true := by
    intro j
    rw [← dataSourceRefresh_ok_iff]
    rfl
  refine ⟨?_, ?_, ?_, ?_⟩
  · rw [waitForDataPoolLive_fst,
      WaitForStateContext_three sdk (waitForDataPoolLiveConf timeout) _ rfl]
    simp only [hpoolGood, hpoolTgt]
  · intro k resp hk hgood hrun hr hst
    have hrefresh : dataPoolRefresh c calls id k = .ok resp.Status := by
      unfold dataPoolRefresh
      rw [hr]
    have hnt : resp.Status ∉ (waitForDataPoolLiveConf timeout).Target := by
      simp only [waitForDataPoolLiveConf, DataPoolStatusLive]
      intro h
      exact hst (by simp only [List.mem_cons, List.mem_singleton] at h ⊢; tauto)
    have hnp : resp.Status ∉ (waitForDataPoolLiveConf timeout).Pending := by
      simp only [waitForDataPoolLiveConf, DataPoolStatusCreated, DataPoolStatusPending]
      intro h
      exact hst (by simp only [List.mem_cons, List.mem_singleton] at h ⊢; tauto)
    have := WaitForStateContext_unexpected_three sdk (waitForDataPoolLiveConf timeout)
      (dataPoolRefresh c calls id) rfl k resp.Status hk
      (fun j hj => (hpoolGood j).mpr (hgood j hj))
      (fun i hi h => hrun i hi ⟨(hpoolTgt i).mp h.1, (hpoolTgt (i + 1)).mp h.2.1,
        (hpoolTgt (i + 2)).mp h.2.2⟩)
      hrefresh hnt hnp
    unfold waitForDataPoolLive
    rw [this]
  · rw [waitForDataSourceConnected_fst,
      WaitForStateContext_three sdk (waitForDataSourceConnectedConf timeout) _ rfl]
    simp only [hsrcGood, hsrcTgt]
  · intro k resp hk hgood hrun hr hst
    have hrefresh : dataSourceRefresh c calls id k = .ok resp.Status := by
      unfold dataSourceRefresh
      rw [hr]
    have hnt : resp.Status ∉ (waitForDataSourceConnectedConf timeout).Target := by
      simp only [waitForDataSourceConnectedConf, DataSourceStatusConnected]
      intro h
      exact hst (by simp only [List.mem_cons, List.mem_singleton] at h ⊢; tauto)
    have hnp : resp.Status ∉ (waitForDataSourceConnectedConf timeout).Pending := by
      simp only [waitForDataSourceConnectedConf, DataSourceStatusCreated,
        DataSourceStatusConnecting]
      intro h
      exact hst (by simp only [List.mem_cons, List.mem_singleton] at h ⊢; tauto)
    have := WaitForStateContext_unexpected_three sdk (waitForDataSourceConnectedConf timeout)
      (dataSourceRefresh c calls id) rfl k resp.Status hk
      (fun j hj => (hsrcGood j).mpr (hgood j hj))
      (fun i hi h => hrun i hi ⟨(hsrcTgt i).mp h.1, (hsrcTgt (i + 1)).mp h.2.1,
        (hsrcTgt (i + 2)).mp h.2.2⟩)
      hrefresh hnt hnp
    unfold waitForDataSourceConnected
    rw [this]

/-- In the configuration of `waitForDataPoolLive`, read `k` is issued before the
deadline exactly when its time `(k + 1) * 10 s` is within the timeout minus one
minute. -/
theorem issuedBeforeDeadline_pool (timeout : Int) (k : Nat) :
    issuedBeforeDeadline (waitForDataPoolLiveConf timeout) k ↔
      ((k : Int) + 1) * (10 * Second) ≤ durationSub timeout Minute := by
  unfold issuedBeforeDeadline waitForDataPoolLiveConf
  simp only
  constructor
  · exact fun h => h.2
  · exact fun h => ⟨by decide, h⟩

/-- In the configuration of `waitForDataSourceConnected`, read `k` is issued
before the deadline exactly when its time `(k + 1) * 10 s` is within the timeout
minus one minute. -/
theorem issuedBeforeDeadline_source (timeout : Int) (k : Nat) :
    issuedBeforeDeadline (waitForDataSourceConnectedConf timeout) k ↔
      ((k : Int) + 1) * (10 * Second) ≤ durationSub timeout Minute := by
  unfold issuedBeforeDeadline waitForDataSourceConnectedConf
  simp only
  constructor
  · exact fun h => h.2
  · exact fun h => ⟨by decide, h⟩

/-- C4: Wait-for-status as configured by `waitForDataPoolLive` (pending CREATED and
PENDING, target LIVE, stability count 3) and by `waitForDataSourceConnected`
(pending CREATED and CONNECTING, target CONNECTED, stability count 3), both with
reads every 10 seconds and the deadline `timeout - 1 minute`, over the poller of
§4.3.  The wait returns success if and only if there are three consecutive reads
`i`, `i + 1`, `i + 2` returning the target status, the last of them issued before
the deadline (its time `(i + 3) * 10 s` is within the deadline), with every read
before `i` succeeding with a pending or target status.  And if the wait is still
running when read `k` is issued (before the deadline) and that read returns a
status outside pending ∪ target, the wait returns an error at that read: exactly
`k + 1` reads are logged. -/
theorem wait_for_status_three_consecutive (timeout : Int) :
    waitForDataPoolLiveConf timeout =
      { Pending := ["CREATED", "PENDING"], Target := ["LIVE"],
        Timeout := durationSub timeout Minute, Delay := 10 * Second,
        MinTimeout := 5 * Second, ContinuousTargetOccurence := 3 } ∧
    waitForDataSourceConnectedConf timeout =
      { Pending := ["CREATED", "CONNECTING"], Target := ["CONNECTED"],
        Timeout := durationSub timeout Minute, Delay := 10 * Second,
        MinTimeout := 5 * Second, ContinuousTargetOccurence := 3 } ∧
    ((waitForDataPoolLive sdk c calls id timeout).1 = none ↔
      ∃ i, (((i + 2 : Nat) : Int) + 1) * (10 * Second) ≤ durationSub timeout Minute ∧
        (∀ j, j < i → poolStatusIn c calls id j ["CREATED", "PENDING", "LIVE"] = true) ∧
        poolStatusIn c calls id i ["LIVE"] = true ∧
        poolStatusIn c calls id (i + 1) ["LIVE"] = true ∧
        poolStatusIn c calls id (i + 2) ["LIVE"] = true) ∧
    (∀ (k : Nat) (resp : DataPoolResponse),
      ((k : Int) + 1) * (10 * Second) ≤ durationSub timeout Minute →
      (∀ j, j < k → poolStatusIn c calls id j ["CREATED", "PENDING", "LIVE"] = true) →
      (∀ i, i + 2 < k → ¬ (poolStatusIn c calls id i ["LIVE"] = true ∧
        poolStatusIn c calls id (i + 1) ["LIVE"] = true ∧
        poolStatusIn c calls id (i + 2) ["LIVE"] = true)) →
      c.DataPool (calls.length + k) id = .ok resp →
      resp.Status ∉ ["CREATED", "PENDING", "LIVE"] →
      waitForDataPoolLive sdk c calls id timeout =
        (some ("error waiting for Data Pool to be LIVE: " ++
            sdk.unexpectedStateError resp.Status),
          calls ++ List.replicate (k + 1) (RemoteCall.DataPool id))) ∧
    ((waitForDataSourceConnected sdk c calls id timeout).1 = none ↔
      ∃ i, (((i + 2 : Nat) : Int) + 1) * (10 * Second) ≤ durationSub timeout Minute ∧
        (∀ j, j < i →
          sourceStatusIn c calls id j ["CREATED", "CONNECTING", "CONNECTED"] = true) ∧
        sourceStatusIn c calls id i ["CONNECTED"] = true ∧
        sourceStatusIn c calls id (i + 1) ["CONNECTED"] = true ∧
        sourceStatusIn c calls id (i + 2) ["CONNECTED"] = true) ∧
    (∀ (k : Nat) (resp : DataSourceResponse),
      ((k : Int) + 1) * (10 * Second) ≤ durationSub timeout Minute →
      (∀ j, j < k →
        sourceStatusIn c calls id j ["CREATED", "CONNECTING", "CONNECTED"] = true) →
      (∀ i, i + 2 < k → ¬ (sourceStatusIn c calls id i ["CONNECTED"] = true ∧
        sourceStatusIn c calls id (i + 1) ["CONNECTED"] = true ∧
        sourceStatusIn c calls id (i + 2) ["CONNECTED"] = true)) →
      c.DataSource (calls.length + k) id = .ok resp →
      resp.Status ∉ ["CREATED", "CONNECTING", "CONNECTED"] →
      waitForDataSourceConnected sdk c calls id timeout =
        (some ("error waiting for Data Source to be CONNECTED: " ++
            sdk.unexpectedStateError resp.Status),
          calls ++ List.replicate (k + 1) (RemoteCall.DataSource id))) := by
  obtain ⟨hp, hpa, hs, hsa⟩ := status_waits_in_poller_terms sdk c calls id timeout
  refine ⟨rfl, rfl, ?_, ?_, ?_, ?_⟩
  · rw [hp]
    simp only [issuedBeforeDeadline_pool]
  · intro k resp hk
    exact hpa k resp ((issuedBeforeDeadline_pool timeout k).mpr hk)
  · rw [hs]
    simp only [issuedBeforeDeadline_source]
  · intro k resp hk
    exact hsa k resp ((issuedBeforeDeadline_source timeout k).mpr hk)

/-- Worked example for C4.  The scenario of the specification: the Data Pool reads
return PENDING, PENDING, LIVE, LIVE, LIVE and the wait for LIVE succeeds.  The
Data Source reads return CREATED, CONNECTING, CONNECTED, CONNECTED, CONNECTED and
the wait for CONNECTED succeeds.  The Data Source reads return CONNECTING, FAILED
and the wait returns an error at the second read. -/
theorem wait_for_status_three_consecutive_witness :
    (waitForDataPoolLive sampleSdk
      (scriptedClient (poolReadsOf ["PENDING", "PENDING", "LIVE", "LIVE", "LIVE"])
        noSourceReads)
      [] "dp_1" (20 * Minute)).1 = none ∧
    (waitForDataSourceConnected sampleSdk
      (scriptedClient (poolReadsOf [])
        (sourceReadsOf ["CREATED", "CONNECTING", "CONNECTED", "CONNECTED", "CONNECTED"]))
      [] "ds_1" (30 * Minute)).1 = none ∧
    waitForDataSourceConnected sampleSdk
      (scriptedClient (poolReadsOf []) (sourceReadsOf ["CONNECTING", "FAILED"]))
      [] "ds_1" (30 * Minute) =
      (some ("error waiting for Data Source to be CONNECTED: " ++
          sampleSdk.unexpectedStateError "FAILED"),
        [] ++ List.replicate (1 + 1) (RemoteCall.DataSource "ds_1")) :=
  ⟨(wait_for_status_three_consecutive sampleSdk
      (scriptedClient (poolReadsOf ["PENDING", "PENDING", "LIVE", "LIVE", "LIVE"])
        noSourceReads)
      [] "dp_1" (20 * Minute)).2.2.1.mpr
      ⟨2, by decide, by intro j hj; interval_cases j <;> rfl, rfl, rfl, rfl⟩,
    (wait_for_status_three_consecutive sampleSdk
      (scriptedClient (poolReadsOf [])
        (sourceReadsOf ["CREATED", "CONNECTING", "CONNECTED", "CONNECTED", "CONNECTED"]))
      [] "ds_1" (30 * Minute)).2.2.2.2.1.mpr
      ⟨2, by decide, by intro j hj; interval_cases j <;> rfl, rfl, rfl, rfl⟩,
    (wait_for_status_three_consecutive sampleSdk
      (scriptedClient (poolReadsOf []) (sourceReadsOf ["CONNECTING", "FAILED"]))
      [] "ds_1" (30 * Minute)).2.2.2.2.2 1
      (sampleSource "Http" "FAILED" (ConnectionSettings.http none) none)
      (by decide) (by intro j hj; interval_cases j; rfl) (by intro i hi; omega) rfl
      (by decide)⟩

end StatusWaitsMain

/-! ### Column mappers -/

/-- On a list of schema-shaped column records `expandPoolColumns` does not fail
and maps record by record. -/
theorem expandPoolColumns_records (cols : List (String × String × Bool)) :
    expandPoolColumns (cols.map fun r => columnRecord r.1 r.2.1 r.2.2) =
      some (cols.map fun r =>
        { ColumnName := r.1, Type_ := poolColumnType r.2.1, IsNullable := r.2.2 }) := by
  induction cols with
  | nil => rfl
  | cons r rest ih =>
    simp only [List.map_cons, expandPoolColumns, ih]
    rfl

/-- On a list of schema-shaped column records `expandHttpColumns` does not fail
and maps record by record. -/
theorem expandHttpColumns_records (cols : List (String × String × Bool)) :
    expandHttpColumns (cols.map fun r => columnRecord r.1 r.2.1 r.2.2) =
      some (cols.map fun r =>
        { Name := r.1, Type_ := httpColumnType r.2.1, Nullable := r.2.2 }) := by
  induction cols with
  | nil => rfl
  | cons r rest ih =>
    simp only [List.map_cons, expandHttpColumns, ih]
    rfl

/-- On a list of schema-shaped column records `expandS3Columns` does not fail
and maps record by record. -/
theorem expandS3Columns_records (cols : List (String × String × Bool)) :
    expandS3Columns (cols.map fun r => columnRecord r.1 r.2.1 r.2.2) =
      some (cols.map fun r =>
        { Name := r.1, Type_ := s3ColumnType r.2.1, Nullable := r.2.2 }) := by
  induction cols with
  | nil => rfl
  | cons r rest ih =>
    simp only [List.map_cons, expandS3Columns, ih]
    rfl

/-- C6: in each of the three mappers every defined literal other than FLOAT is
mapped to the like-named remote `ColumnType` value; the nine values are pairwise
distinct and none is the zero value; and the three mappers agree on every
literal.  The emitted column carries the value of the mapper's switch. -/
theorem column_type_mapping :
    mappedLiterals = columnTypeLiterals.filter (fun l => l != "FLOAT") ∧
    mappedLiterals.map poolColumnType =
      [ColumnTypeBoolean, ColumnTypeDate, ColumnTypeDouble, ColumnTypeInt8, ColumnTypeInt16,
        ColumnTypeInt32, ColumnTypeInt64, ColumnTypeString, ColumnTypeTimestamp] ∧
    mappedLiterals.map httpColumnType =
      [ColumnTypeBoolean, ColumnTypeDate, ColumnTypeDouble, ColumnTypeInt8, ColumnTypeInt16,
        ColumnTypeInt32, ColumnTypeInt64, ColumnTypeString, ColumnTypeTimestamp] ∧
    mappedLiterals.map s3ColumnType =
      [ColumnTypeBoolean, ColumnTypeDate, ColumnTypeDouble, ColumnTypeInt8, ColumnTypeInt16,
        ColumnTypeInt32, ColumnTypeInt64, ColumnTypeString, ColumnTypeTimestamp] ∧
    (mappedLiterals.map poolColumnType).Nodup ∧
    ColumnTypeZero ∉ mappedLiterals.map poolColumnType ∧
    (∀ type : String, poolColumnType type = httpColumnType type ∧
      httpColumnType type = s3ColumnType type) ∧
    (∀ (name type : String) (nullable : Bool),
      expandPoolColumns [columnRecord name type nullable] =
        some [{ ColumnName := name, Type_ := poolColumnType type, IsNullable := nullable }] ∧
      expandHttpColumns [columnRecord name type nullable] =
        some [{ Name := name, Type_ := httpColumnType type, Nullable := nullable }] ∧
      expandS3Columns [columnRecord name type nullable] =
        some [{ Name := name, Type_ := s3ColumnType type, Nullable := nullable }]) := by
  refine ⟨by decide, by decide, by decide, by decide, by decide, by decide, ?_, ?_⟩
  · intro type
    exact ⟨rfl, rfl⟩
  · intro name type nullable
    exact ⟨expandPoolColumns_records [(name, type, nullable)],
      expandHttpColumns_records [(name, type, nullable)],
      expandS3Columns_records [(name, type, nullable)]⟩

/-- A literal without a `case` leaves the column type at its zero value. -/
theorem poolColumnType_unmapped (type : String) (h : type ∉ mappedLiterals) :
    poolColumnType type = ColumnTypeZero := by
  simp only [mappedLiterals, List.mem_cons, List.mem_singleton, List.not_mem_nil, or_false,
    not_or] at h
  unfold poolColumnType
  split <;> simp_all

/-- C7: a column record whose type literal is not one of the mapped literals
does not make a mapper fail; the mapper emits a column with the record's name and
nullability and the zero `ColumnType`.  On every list of column records each
mapper returns a list of the same length, in the same order. -/
theorem unmapped_literal_gives_zero_type (type : String) (h : type ∉ mappedLiterals) :
    (∀ (name : String) (nullable : Bool),
      expandPoolColumns [columnRecord name type nullable] =
        some [{ ColumnName := name, Type_ := ColumnTypeZero, IsNullable := nullable }] ∧
      expandHttpColumns [columnRecord name type nullable] =
        some [{ Name := name, Type_ := ColumnTypeZero, Nullable := nullable }] ∧
      expandS3Columns [columnRecord name type nullable] =
        some [{ Name := name, Type_ := ColumnTypeZero, Nullable := nullable }]) ∧
    (∀ cols : List (String × String × Bool),
      expandPoolColumns (cols.map fun r => columnRecord r.1 r.2.1 r.2.2) =
        some (cols.map fun r =>
          { ColumnName := r.1, Type_ := poolColumnType r.2.1, IsNullable := r.2.2 }) ∧
      expandHttpColumns (cols.map fun r => columnRecord r.1 r.2.1 r.2.2) =
        some (cols.map fun r =>
          { Name := r.1, Type_ := httpColumnType r.2.1, Nullable := r.2.2 }) ∧
      expandS3Columns (cols.map fun r => columnRecord r.1 r.2.1 r.2.2) =
        some (cols.map fun r =>
          { Name := r.1, Type_ := s3ColumnType r.2.1, Nullable := r.2.2 })) := by
  have hz := poolColumnType_unmapped type h
  refine ⟨?_, fun cols => ⟨expandPoolColumns_records cols, expandHttpColumns_records cols,
    expandS3Columns_records cols⟩⟩
  intro name nullable
  have h1 := expandPoolColumns_records [(name, type, nullable)]
  have h2 := expandHttpColumns_records [(name, type, nullable)]
  have h3 := expandS3Columns_records [(name, type, nullable)]
  have hz2 : httpColumnType type = ColumnTypeZero := hz
  have hz3 : s3ColumnType type = ColumnTypeZero := hz
  simp only [List.map_cons, List.map_nil, hz] at h1
  simp only [List.map_cons, List.map_nil, hz2] at h2
  simp only [List.map_cons, List.map_nil, hz3] at h3
  exact ⟨h1, h2, h3⟩

/-- Worked example for C7: the literals "FLOAT", "int64" and the empty string. -/
theorem unmapped_literal_gives_zero_type_witness :
    expandPoolColumns [columnRecord "price" "FLOAT" true] =
        some [{ ColumnName := "price", Type_ := ColumnTypeZero, IsNullable := true }] ∧
    expandHttpColumns [columnRecord "id" "int64" false] =
        some [{ Name := "id", Type_ := ColumnTypeZero, Nullable := false }] ∧
    expandS3Columns [columnRecord "x" "" false] =
        some [{ Name := "x", Type_ := ColumnTypeZero, Nullable := false }] :=
  ⟨((unmapped_literal_gives_zero_type "FLOAT" (by decide)).1 "price" true).1,
    ((unmapped_literal_gives_zero_type "int64" (by decide)).1 "id" false).2.1,
    ((unmapped_literal_gives_zero_type "" (by decide)).1 "x" false).2.2⟩

/-! ### Deadlines -/

/-- After a successful remote delete call, `resourceDataPoolDelete` is decided by
`waitForDataPoolDeletion`, called with the whole `d.Timeout(TimeoutDelete)`. -/
theorem resourceDataPoolDelete_after_call (c : Client) (w : World)
    (hcall : c.DeleteDataPool w.calls.length w.d.id = .ok ()) :
    resourceDataPoolDelete c w =
      match waitForDataPoolDeletion c (w.calls ++ [RemoteCall.DeleteDataPool w.d.id])
          w.d.id (w.d.Timeout TimeoutKey.TimeoutDelete) with
      | (some err, calls) => some ({ d := w.d, calls := calls }, FromErr err)
      | (none, calls) => some ({ d := w.d.SetId "", calls := calls }, []) := by
  simp only [resourceDataPoolDelete, hcall]

/-- C8: `resourceDataSourceCreate` routes on the upper-cased type string: to the
Snowflake, HTTP or S3 create sub-path when it is "SNOWFLAKE", "HTTP" or "S3" (so
"snowflake", "Snowflake" and "SNOWFLAKE" are routed alike); for every other type
string `s` it returns the single error diagnostic
`Unsupported Data Source type "s"`, with `s` as given, and leaves the resource
data and the call log untouched. -/
theorem resourceDataSourceCreate_dispatch (sdk : Sdk) (c : Client) (w : World) (s : String)
    (hs : w.d.Get "type" = Value.str s) :
    (ToUpper sdk s = "SNOWFLAKE" →
      resourceDataSourceCreate sdk c w = resourceSnowflakeDataSourceCreate sdk c w) ∧
    (ToUpper sdk s = "HTTP" →
      resourceDataSourceCreate sdk c w = resourceHttpDataSourceCreate sdk c w) ∧
    (ToUpper sdk s = "S3" →
      resourceDataSourceCreate sdk c w = resourceS3DataSourceCreate sdk c w) ∧
    (ToUpper sdk s ≠ "SNOWFLAKE" → ToUpper sdk s ≠ "HTTP" → ToUpper sdk s ≠ "S3" →
      resourceDataSourceCreate sdk c w =
        some (w, [{ Severity := Severity.Error,
                    Summary := "Unsupported Data Source type \"" ++ s ++ "\"" }])) ∧
    ToUpper sdk "snowflake" = "SNOWFLAKE" ∧ ToUpper sdk "Snowflake" = "SNOWFLAKE" ∧
    ToUpper sdk "SNOWFLAKE" = "SNOWFLAKE" ∧
    ToUpper sdk "http" = "HTTP" ∧ ToUpper sdk "Http" = "HTTP" ∧
    ToUpper sdk "s3" = "S3" ∧ ToUpper sdk "S3" = "S3" := by
  refine ⟨?_, ?_, ?_, ?_, rfl, rfl, rfl, rfl, rfl, rfl, rfl⟩
  · intro h
    simp only [resourceDataSourceCreate, hs, Value.asString, Option.bind_eq_bind,
      Option.some_bind, h]
  · intro h
    simp only [resourceDataSourceCreate, hs, Value.asString, Option.bind_eq_bind,
      Option.some_bind, h]
  · intro h
    simp only [resourceDataSourceCreate, hs, Value.asString, Option.bind_eq_bind,
      Option.some_bind, h]
  · intro h1 h2 h3
    simp only [resourceDataSourceCreate, hs, Value.asString, Option.bind_eq_bind,
      Option.some_bind]
    rfl

/-- Worked example for C8: the type "Kafka" is rejected with one error
diagnostic, and nothing else happens. -/
theorem resourceDataSourceCreate_dispatch_witness :
    resourceDataSourceCreate sampleSdk (scriptedClient (poolReadsThenError 0 "x") noSourceReads)
        { d := sampleData "" [("type", Value.str "Kafka")] [], calls := [] } =
      some ({ d := sampleData "" [("type", Value.str "Kafka")] [], calls := [] },
        [{ Severity := Severity.Error,
           Summary := "Unsupported Data Source type \"" ++ "Kafka" ++ "\"" }]) :=
  (resourceDataSourceCreate_dispatch sampleSdk
    (scriptedClient (poolReadsThenError 0 "x") noSourceReads)
    { d := sampleData "" [("type", Value.str "Kafka")] [], calls := [] } "Kafka" rfl).2.2.2.1
    (by decide) (by decide) (by decide)

/-- When `d.Set` accepts the key, `setOrReturn` writes the value and goes on. -/
theorem setOrReturn_ok (sdk : Sdk) (w : World) (key : String) (value : Value)
    (k : World → Option (World × Diagnostics)) (h : sdk.setError key value = none) :
    setOrReturn sdk w key value k =
      k { w with d := { w.d with attrs := (key, value) :: w.d.attrs } } := by
  simp only [setOrReturn, ResourceData.Set, h]

/-- When the read succeeds and `d.Set` accepts a string for each of the ten common
keys, `resourceDataSourceRead` is its final switch, run in the state
`afterCommonFields`. -/
theorem resourceDataSourceRead_common (sdk : Sdk) (c : Client) (w : World)
    (response : DataSourceResponse)
    (hread : c.DataSource w.calls.length w.d.id = .ok response)
    (hset : ∀ key s, key ∈ commonKeys → sdk.setError key (Value.str s) = none) :
    resourceDataSourceRead sdk c w = readDispatch sdk response (afterCommonFields w response) := by
  unfold resourceDataSourceRead
  simp only [hread]
  rw [setOrReturn_ok _ _ _ _ _ (hset _ _ (by decide)),
    setOrReturn_ok _ _ _ _ _ (hset _ _ (by decide)),
    setOrReturn_ok _ _ _ _ _ (hset _ _ (by decide)),
    setOrReturn_ok _ _ _ _ _ (hset _ _ (by decide)),
    setOrReturn_ok _ _ _ _ _ (hset _ _ (by decide)),
    setOrReturn_ok _ _ _ _ _ (hset _ _ (by decide)),
    setOrReturn_ok _ _ _ _ _ (hset _ _ (by decide)),
    setOrReturn_ok _ _ _ _ _ (hset _ _ (by decide)),
    setOrReturn_ok _ _ _ _ _ (hset _ _ (by decide)),
    setOrReturn_ok _ _ _ _ _ (hset _ _ (by decide))]
  rfl

/-- C9: once the read has succeeded and the common fields are written (`d.Set`
accepts a string for each of the ten common keys, all declared as strings in the
schema; nothing is assumed about values of another type),
`resourceDataSourceRead` runs the extraction selected by the upper-cased type of
the remote response alone: SNOWFLAKE runs the Snowflake settings handler; HTTP
runs the HTTP tables handler and, if that returns no diagnostics, the HTTP
settings handler; S3 runs the S3 tables handler and then the S3 settings handler;
any other returned type yields the error diagnostic
`Unsupported Data Source type "<returned type>"`.  The local `type` attribute has
by then been overwritten with the returned type. -/
theorem resourceDataSourceRead_dispatch (sdk : Sdk) (c : Client) (w : World)
    (response : DataSourceResponse)
    (hread : c.DataSource w.calls.length w.d.id = .ok response)
    (hset : ∀ key s, key ∈ commonKeys → sdk.setError key (Value.str s) = none) :
    (afterCommonFields w response).d.Get "type" = Value.str response.Type_ ∧
    (ToUpper sdk response.Type_ = "SNOWFLAKE" →
      resourceDataSourceRead sdk c w =
        handleSnowflakeConnectionSettings sdk response (afterCommonFields w response)) ∧
    (ToUpper sdk response.Type_ = "HTTP" →
      resourceDataSourceRead sdk c w =
        if (handleHttpTables sdk response (afterCommonFields w response)).2 ≠ [] then
          some (handleHttpTables sdk response (afterCommonFields w response))
        else
          handleHttpConnectionSettings response
            (handleHttpTables sdk response (afterCommonFields w response)).1) ∧
    (ToUpper sdk response.Type_ = "S3" →
      resourceDataSourceRead sdk c w =
        if (handleS3Tables sdk response (afterCommonFields w response)).2 ≠ [] then
          some (handleS3Tables sdk response (afterCommonFields w response))
        else
          handleS3ConnectionSettings response
            (handleS3Tables sdk response (afterCommonFields w response)).1) ∧
    (ToUpper sdk response.Type_ ≠ "SNOWFLAKE" → ToUpper sdk response.Type_ ≠ "HTTP" →
      ToUpper sdk response.Type_ ≠ "S3" →
      resourceDataSourceRead sdk c w =
        some (afterCommonFields w response,
          [{ Severity := Severity.Error,
             Summary := "Unsupported Data Source type \"" ++ response.Type_ ++ "\"" }])) := by
  rw [resourceDataSourceRead_common sdk c w response hread hset]
  refine ⟨rfl, ?_, ?_, ?_, ?_⟩
  · intro h
    simp only [readDispatch, h]
  · intro h
    simp only [readDispatch, h]
  · intro h
    simp only [readDispatch, h]
  · intro h1 h2 h3
    simp only [readDispatch]
    rfl

/-- Worked example for C9, with a `d.Set` that rejects every value other than a
string for the common keys.  The local type is "S3", the remote response says
"Snowflake": Read runs the Snowflake settings handler.  The local type is "S3",
the remote response says "Kafka": Read returns the error diagnostic naming
"Kafka". -/
theorem resourceDataSourceRead_dispatch_witness :
    resourceDataSourceRead typedSdk
        (scriptedClient (poolReadsThenError 0 "x")
          (fun _ => .ok (sampleSource "Snowflake" "CONNECTED"
            (ConnectionSettings.snowflake "acme" "db" "wh" "public" "r" "u") none)))
        { d := sampleData "ds_1"
            [("type", Value.str "S3"), ("snowflake_connection_settings", sampleSnowflakeSettings)]
            [],
          calls := [] } =
      handleSnowflakeConnectionSettings typedSdk
        (sampleSource "Snowflake" "CONNECTED"
          (ConnectionSettings.snowflake "acme" "db" "wh" "public" "r" "u") none)
        (afterCommonFields
          { d := sampleData "ds_1"
              [("type", Value.str "S3"),
                ("snowflake_connection_settings", sampleSnowflakeSettings)]
              [],
            calls := [] }
          (sampleSource "Snowflake" "CONNECTED"
            (ConnectionSettings.snowflake "acme" "db" "wh" "public" "r" "u") none)) ∧
    resourceDataSourceRead typedSdk
        (scriptedClient (poolReadsThenError 0 "x")
          (fun _ => .ok (sampleSource "Kafka" "CONNECTED" (ConnectionSettings.http none) none)))
        { d := sampleData "ds_1" [("type", Value.str "S3")] [], calls := [] } =
      some (afterCommonFields
          { d := sampleData "ds_1" [("type", Value.str "S3")] [], calls := [] }
          (sampleSource "Kafka" "CONNECTED" (ConnectionSettings.http none) none),
        [{ Severity := Severity.Error,
           Summary := "Unsupported Data Source type \"" ++ "Kafka" ++ "\"" }]) :=
  ⟨(resourceDataSourceRead_dispatch typedSdk
    (scriptedClient (poolReadsThenError 0 "x")
      (fun _ => .ok (sampleSource "Snowflake" "CONNECTED"
        (ConnectionSettings.snowflake "acme" "db" "wh" "public" "r" "u") none)))
    { d := sampleData "ds_1"
        [("type", Value.str "S3"), ("snowflake_connection_settings", sampleSnowflakeSettings)]
        [],
      calls := [] }
    (sampleSource "Snowflake" "CONNECTED"
      (ConnectionSettings.snowflake "acme" "db" "wh" "public" "r" "u") none)
    rfl (fun _ _ _ => rfl)).2.1 rfl,
   (resourceDataSourceRead_dispatch typedSdk
    (scriptedClient (poolReadsThenError 0 "x")
      (fun _ => .ok (sampleSource "Kafka" "CONNECTED" (ConnectionSettings.http none) none)))
    { d := sampleData "ds_1" [("type", Value.str "S3")] [], calls := [] }
    (sampleSource "Kafka" "CONNECTED" (ConnectionSettings.http none) none)
    rfl (fun _ _ _ => rfl)).2.2.2.2 (by decide) (by decide) (by decide)⟩

/-! ### Update of a Data Source -/

/-- Function `handleSnowflakeConnectionSettings` issues no remote call. -/
theorem handleSnowflakeConnectionSettings_calls (sdk : Sdk) (response : DataSourceResponse)
    (w : World) (r : World × Diagnostics)
    (h : handleSnowflakeConnectionSettings sdk response w = some r) : r.1.calls = w.calls := by
  unfold handleSnowflakeConnectionSettings at h
  simp only [Option.bind_eq_bind, Option.bind_eq_some] at h
  obtain ⟨list, _, first, _, cs, _, h⟩ := h
  split at h
  · split at h <;> (cases h; rfl)
  · cases h; rfl

/-- Function `handleHttpTables` issues no remote call. -/
theorem handleHttpTables_calls (sdk : Sdk) (response : DataSourceResponse) (w : World) :
    (handleHttpTables sdk response w).1.calls = w.calls := by
  unfold handleHttpTables
  split
  · rfl
  · split <;> rfl

/-- Function `handleS3Tables` issues no remote call. -/
theorem handleS3Tables_calls (sdk : Sdk) (response : DataSourceResponse) (w : World) :
    (handleS3Tables sdk response w).1.calls = w.calls := by
  unfold handleS3Tables
  split
  · rfl
  · split <;> rfl

/-- Function `handleHttpConnectionSettings` changes neither the resource data nor
the call log. -/
theorem handleHttpConnectionSettings_world (response : DataSourceResponse) (w : World)
    (r : World × Diagnostics) (h : handleHttpConnectionSettings response w = some r) :
    r.1 = w := by
  unfold handleHttpConnectionSettings at h
  split at h
  · cases h; rfl
  · simp only [Option.bind_eq_bind, Option.bind_eq_some] at h
    obtain ⟨list, _, h⟩ := h
    split at h
    · cases h; rfl
    · simp only [Option.bind_eq_some] at h
      obtain ⟨first, _, cs, _, h⟩ := h
      split at h
      · cases h; rfl
      · split at h
        · simp only [Option.bind_eq_bind, Option.bind_eq_some] at h
          obtain ⟨auths, _, h⟩ := h
          split at h
          · simp only [Option.bind_eq_some] at h
            obtain ⟨_, _, _, _, h⟩ := h
            cases h; rfl
          · cases h; rfl
        · cases h; rfl
      · cases h; rfl

/-- Function `handleS3ConnectionSettings` changes neither the resource data nor
the call log. -/
theorem handleS3ConnectionSettings_world (response : DataSourceResponse) (w : World)
    (r : World × Diagnostics) (h : handleS3ConnectionSettings response w = some r) :
    r.1 = w := by
  unfold handleS3ConnectionSettings at h
  simp only [Option.bind_eq_bind, Option.bind_eq_some] at h
  obtain ⟨list, _, first, _, cs, _, h⟩ := h
  split at h <;> (cases h; rfl)

/-- The final switch of `resourceDataSourceRead` issues no remote call. -/
theorem readDispatch_calls (sdk : Sdk) (response : DataSourceResponse) (w : World)
    (r : World × Diagnostics) (h : readDispatch sdk response w = some r) :
    r.1.calls = w.calls := by
  unfold readDispatch at h
  simp only at h
  split at h
  · exact handleSnowflakeConnectionSettings_calls sdk response w r h
  · split at h
    · cases h
      exact handleHttpTables_calls sdk response w
    · rw [handleHttpConnectionSettings_world response _ r h]
      exact handleHttpTables_calls sdk response w
  · split at h
    · cases h
      exact handleS3Tables_calls sdk response w
    · rw [handleS3ConnectionSettings_world response _ r h]
      exact handleS3Tables_calls sdk response w
  · cases h; rfl

/-- A `d.Set` step keeps the call log if the rest of the function does. -/
theorem setOrReturn_calls (sdk : Sdk) (w : World) (key : String) (value : Value)
    (k : World → Option (World × Diagnostics)) (calls : List RemoteCall)
    (hk : ∀ (w1 : World) (r : World × Diagnostics), w1.calls = calls → k w1 = some r →
      r.1.calls = calls)
    (hw : w.calls = calls) (r : World × Diagnostics)
    (h : setOrReturn sdk w key value k = some r) : r.1.calls = calls := by
  unfold setOrReturn at h
  split at h
  · cases h; exact hw
  · refine hk _ r ?_ h
    exact hw

/-- Whatever its outcome, `resourceDataSourceRead` issues exactly one remote
call: the read of the Data Source. -/
theorem resourceDataSourceRead_calls (sdk : Sdk) (c : Client) (w : World)
    (r : World × Diagnostics) (h : resourceDataSourceRead sdk c w = some r) :
    r.1.calls = w.calls ++ [RemoteCall.DataSource w.d.id] := by
  unfold resourceDataSourceRead at h
  simp only at h
  split at h
  · cases h; rfl
  · rename_i response _
    refine setOrReturn_calls sdk _ _ _ _ _ ?_ rfl r h
    intro w1 r1 hw1 h1
    refine setOrReturn_calls sdk _ _ _ _ _ ?_ hw1 r1 h1
    intro w2 r2 hw2 h2
    refine setOrReturn_calls sdk _ _ _ _ _ ?_ hw2 r2 h2
    intro w3 r3 hw3 h3
    refine setOrReturn_calls sdk _ _ _ _ _ ?_ hw3 r3 h3
    intro w4 r4 hw4 h4
    refine setOrReturn_calls sdk _ _ _ _ _ ?_ hw4 r4 h4
    intro w5 r5 hw5 h5
    refine setOrReturn_calls sdk _ _ _ _ _ ?_ hw5 r5 h5
    intro w6 r6 hw6 h6
    refine setOrReturn_calls sdk _ _ _ _ _ ?_ hw6 r6 h6
    intro w7 r7 hw7 h7
    refine setOrReturn_calls sdk _ _ _ _ _ ?_ hw7 r7 h7
    intro w8 r8 hw8 h8
    refine setOrReturn_calls sdk _ _ _ _ _ ?_ hw8 r8 h8
    intro w9 r9 hw9 h9
    refine setOrReturn_calls sdk _ _ _ _ _ ?_ hw9 r9 h9
    intro w10 r10 hw10 h10
    rw [readDispatch_calls sdk response w10 r10 h10]
    exact hw10

/-- C10: `resourceDataSourceUpdate` issues the remote modify call if and only if
`unique_name` or `description` changed.  Without such a change Update is exactly
Read.  With such a change the modify call carries the local id and the two
attributes; if it succeeds Update goes on to Read and returns what Read returns,
and if it fails Update returns that error without a Read.  In every outcome the
calls that Update adds to the log contain a modify call exactly when one of the
two attributes changed. -/
theorem resourceDataSourceUpdate_modify_iff_changed (sdk : Sdk) (c : Client) (w : World) :
    (w.d.HasChanges ["unique_name", "description"] = true ↔
      "unique_name" ∈ w.d.changed ∨ "description" ∈ w.d.changed) ∧
    (w.d.HasChanges ["unique_name", "description"] = false →
      resourceDataSourceUpdate sdk c w = resourceDataSourceRead sdk c w) ∧
    (w.d.HasChanges ["unique_name", "description"] = true →
      ∀ uniqueName description : String,
        w.d.Get "unique_name" = Value.str uniqueName →
        w.d.Get "description" = Value.str description →
        (c.ModifySnowflakeDataSource w.calls.length
            { Id := some w.d.id, UniqueName := some uniqueName,
              Description := some description } = .ok () →
          resourceDataSourceUpdate sdk c w =
            resourceDataSourceRead sdk c
              { w with calls := w.calls ++ [RemoteCall.ModifySnowflakeDataSource
                  { Id := some w.d.id, UniqueName := some uniqueName,
                    Description := some description }] }) ∧
        (∀ err, c.ModifySnowflakeDataSource w.calls.length
            { Id := some w.d.id, UniqueName := some uniqueName,
              Description := some description } = .error err →
          resourceDataSourceUpdate sdk c w =
            some ({ w with calls := w.calls ++ [RemoteCall.ModifySnowflakeDataSource
                  { Id := some w.d.id, UniqueName := some uniqueName,
                    Description := some description }] }, FromErr err))) ∧
    (∀ r : World × Diagnostics, resourceDataSourceUpdate sdk c w = some r →
      ((∃ input, RemoteCall.ModifySnowflakeDataSource input ∈ r.1.calls.drop w.calls.length) ↔
        w.d.HasChanges ["unique_name", "description"] = true)) := by
  refine ⟨?_, ?_, ?_, ?_⟩
  · simp [ResourceData.HasChanges]
  · intro h
    simp only [resourceDataSourceUpdate, h, Bool.false_eq_true, if_false]
  · intro h uniqueName description hu hd
    constructor
    · intro hcall
      simp only [resourceDataSourceUpdate, h, if_true, hu, hd, Value.asString,
        Option.bind_eq_bind, Option.some_bind, hcall]
    · intro err hcall
      simp only [resourceDataSourceUpdate, h, if_true, hu, hd, Value.asString,
        Option.bind_eq_bind, Option.some_bind, hcall]
  · intro r hr
    by_cases h : w.d.HasChanges ["unique_name", "description"] = true
    · simp only [h, iff_true]
      simp only [resourceDataSourceUpdate, h, if_true, Option.bind_eq_bind,
        Option.bind_eq_some] at hr
      obtain ⟨uniqueName, _, description, _, hr⟩ := hr
      refine ⟨{ Id := some w.d.id, UniqueName := some uniqueName,
                Description := some description }, ?_⟩
      split at hr
      · cases hr
        simp
      · have := resourceDataSourceRead_calls sdk c _ r hr
        rw [this]
        simp
    · simp only [h, iff_false]
      have h' : w.d.HasChanges ["unique_name", "description"] = false := by
        simpa using h
      simp only [resourceDataSourceUpdate, h', Bool.false_eq_true, if_false] at hr
      have := resourceDataSourceRead_calls sdk c _ r hr
      rw [this]
      simp

/-- Worked example for C10: only `table` changed, so Update is exactly Read. -/
theorem resourceDataSourceUpdate_modify_iff_changed_witness :
    resourceDataSourceUpdate sampleSdk
        (scriptedClient (poolReadsThenError 0 "x") noSourceReads)
        { d := sampleData "ds_1" [("unique_name", Value.str "a")] ["table"], calls := [] } =
      resourceDataSourceRead sampleSdk
        (scriptedClient (poolReadsThenError 0 "x") noSourceReads)
        { d := sampleData "ds_1" [("unique_name", Value.str "a")] ["table"], calls := [] } :=
  (resourceDataSourceUpdate_modify_iff_changed sampleSdk
    (scriptedClient (poolReadsThenError 0 "x") noSourceReads)
    { d := sampleData "ds_1" [("unique_name", Value.str "a")] ["table"], calls := [] }).2.1
    (by decide)


/-! ### Update of a Data Pool -/

/-- Whenever `unique_name` or `description` changed and the resource data has no
value under the key "descriptionunique_name", `resourceDataPoolUpdate` fails at
the type assertion on that lookup, before any remote call. -/
theorem resourceDataPoolUpdate_undeclared_key (sdk : Sdk) (c : Client) (w : World)
    (hchanged : w.d.HasChanges ["unique_name", "description"] = true)
    (hkey : w.d.Get "descriptionunique_name" = Value.null) :
    resourceDataPoolUpdate sdk c w = none := by
  unfold resourceDataPoolUpdate
  rw [if_pos hchanged, hkey]
  cases (w.d.Get "unique_name").asString <;> rfl

/-- C11 (refuted by the code): in the Data Pool state `changedPoolData`, whose
description changed, `resourceDataPoolUpdate` does not complete its attribute
lookups: it reads the key "descriptionunique_name", which is not a key of the
Data Pool schema and has no value, and fails on the type assertion; no
ModifyDataPool request is sent, although "unique_name" and "description" both
hold strings. -/
theorem resourceDataPoolUpdate_fails_on_change (sdk : Sdk) (c : Client)
    (calls : List RemoteCall) :
    changedPoolData.HasChanges ["unique_name", "description"] = true ∧
    changedPoolData.Get "unique_name" = Value.str "pool" ∧
    changedPoolData.Get "description" = Value.str "new text" ∧
    "descriptionunique_name" ∉ dataPoolSchemaKeys ∧
    changedPoolData.attrs.map Prod.fst = dataPoolSchemaKeys ∧
    changedPoolData.Get "descriptionunique_name" = Value.null ∧
    resourceDataPoolUpdate sdk c { d := changedPoolData, calls := calls } = none :=
  ⟨by decide, rfl, rfl, by decide, by decide, rfl,
    resourceDataPoolUpdate_undeclared_key sdk c _ rfl rfl⟩


/-! ### Basic authentication of an HTTP Data Source -/

/-- C19 (refuted by the code): when `http_connection_settings` is absent or empty
the request's BasicAuth is absent, and when the `basic_auth` list is non-empty
the request carries the username and password of its first element; but when the
settings record is present with an empty `basic_auth` list (state
`httpDataNoBasicAuth`), the key is found in the record, `expandBasicAuth` indexes
element 0 of the empty list, and `resourceHttpDataSourceCreate` fails before it
builds any request.  It fails as well when the element of the empty settings
block is `nil` (state `httpDataEmptyBlock`). -/
theorem resourceHttpDataSourceCreate_fails_on_empty_basic_auth (sdk : Sdk) (c : Client)
    (calls : List RemoteCall) :
    httpBasicAuth httpDataNoSettings = some none ∧
    httpBasicAuth httpDataWithBasicAuth = some (some { Username := "u", Password := "p" }) ∧
    expandBasicAuth [] = none ∧
    httpBasicAuth httpDataNoBasicAuth = none ∧
    httpCreateInput httpDataNoBasicAuth = none ∧
    resourceHttpDataSourceCreate sdk c { d := httpDataNoBasicAuth, calls := calls } = none ∧
    resourceDataSourceCreate sdk c { d := httpDataNoBasicAuth, calls := calls } = none ∧
    resourceHttpDataSourceCreate sdk c { d := httpDataEmptyBlock, calls := calls } = none :=
  ⟨rfl, rfl, rfl, rfl, rfl, rfl, rfl, rfl⟩


/-! ### Connection settings of an S3 Data Source on Read -/

/-- C15 (refuted by the code): `handleS3ConnectionSettings` never writes to the
resource data, whatever the response.  So a Read of an S3 Data Source whose
remote connection settings are bucket `new-bucket` and access key id `NEWKEY`,
run on a local state whose `s3_connection_settings` hold `old-bucket` and
`OLDKEY`, succeeds with no diagnostics and leaves the local
`s3_connection_settings` as they were: the local bucket and access key id do not
match the remote ones. -/
theorem resourceDataSourceRead_s3_settings_stay_stale :
    (∀ (response : DataSourceResponse) (w : World) (r : World × Diagnostics),
      handleS3ConnectionSettings response w = some r → r.1 = w) ∧
    (resourceDataSourceRead sampleSdk s3RemoteClient { d := s3LocalData, calls := [] }).map
        (fun r => (r.1.d.Get "s3_connection_settings", r.2, r.1.d.Get "type")) =
      some (s3LocalSettings, [], Value.str "S3") ∧
    s3RemoteClient.DataSource 0 "ds_1" =
      .ok (sampleSource "S3" "CONNECTED" (ConnectionSettings.s3 "new-bucket" "NEWKEY") none) ∧
    s3LocalSettings =
      Value.list [Value.map [("bucket", Value.str "old-bucket"),
        ("aws_access_key_id", Value.str "OLDKEY"),
        ("aws_secret_access_key", Value.str "s3cr3t")]] :=
  ⟨handleS3ConnectionSettings_world, rfl, rfl, rfl⟩


/-! ### Delete of a Data Pool -/

/-- C12: `resourceDataPoolDelete` never fails to return.  If the remote delete
call fails, or the wait for the deletion returns an error, Delete returns that
error as its only diagnostic and leaves the resource data, the id included, as
it was; if both succeed it returns no diagnostics and the id is set to "".  So
the diagnostics are empty, and the id is cleared, exactly when the delete call
succeeded and the wait returned nil.  In particular, for a non-negative timeout,
when the first read of the wait fails with an error containing "not found",
Delete returns no diagnostics, clears the id, and has issued the delete call and
that one read. -/
theorem resourceDataPoolDelete_clears_id_after_confirmation (c : Client) (w : World) :
    (∀ err, c.DeleteDataPool w.calls.length w.d.id = .error err →
      resourceDataPoolDelete c w =
        some ({ d := w.d, calls := w.calls ++ [RemoteCall.DeleteDataPool w.d.id] },
          FromErr err)) ∧
    (c.DeleteDataPool w.calls.length w.d.id = .ok () →
      ∀ err calls, waitForDataPoolDeletion c (w.calls ++ [RemoteCall.DeleteDataPool w.d.id])
          w.d.id (w.d.Timeout TimeoutKey.TimeoutDelete) = (some err, calls) →
        resourceDataPoolDelete c w = some ({ d := w.d, calls := calls }, FromErr err)) ∧
    (c.DeleteDataPool w.calls.length w.d.id = .ok () →
      ∀ calls, waitForDataPoolDeletion c (w.calls ++ [RemoteCall.DeleteDataPool w.d.id])
          w.d.id (w.d.Timeout TimeoutKey.TimeoutDelete) = (none, calls) →
        resourceDataPoolDelete c w = some ({ d := w.d.SetId "", calls := calls }, [])) ∧
    (∃ r, resourceDataPoolDelete c w = some r ∧
      (r.2 = [] ↔
        (c.DeleteDataPool w.calls.length w.d.id = .ok () ∧
          (waitForDataPoolDeletion c (w.calls ++ [RemoteCall.DeleteDataPool w.d.id])
            w.d.id (w.d.Timeout TimeoutKey.TimeoutDelete)).1 = none)) ∧
      r.1.d = if r.2 = [] then w.d.SetId "" else w.d) ∧
    (c.DeleteDataPool w.calls.length w.d.id = .ok () →
      0 ≤ w.d.Timeout TimeoutKey.TimeoutDelete →
      ∀ e, c.DataPool (w.calls.length + 1) w.d.id = .error e →
        Contains e "not found" = true →
        resourceDataPoolDelete c w =
          some ({ d := w.d.SetId "",
                  calls := w.calls ++ [RemoteCall.DeleteDataPool w.d.id] ++
                    [RemoteCall.DataPool w.d.id] }, [])) := by
  have herr : ∀ err, c.DeleteDataPool w.calls.length w.d.id = .error err →
      resourceDataPoolDelete c w =
        some ({ d := w.d, calls := w.calls ++ [RemoteCall.DeleteDataPool w.d.id] },
          FromErr err) := by
    intro err h
    simp only [resourceDataPoolDelete, h]
  have hwerr : c.DeleteDataPool w.calls.length w.d.id = .ok () →
      ∀ err calls, waitForDataPoolDeletion c (w.calls ++ [RemoteCall.DeleteDataPool w.d.id])
          w.d.id (w.d.Timeout TimeoutKey.TimeoutDelete) = (some err, calls) →
        resourceDataPoolDelete c w = some ({ d := w.d, calls := calls }, FromErr err) := by
    intro h err calls hw
    rw [resourceDataPoolDelete_after_call c w h, hw]
  have hwok : c.DeleteDataPool w.calls.length w.d.id = .ok () →
      ∀ calls, waitForDataPoolDeletion c (w.calls ++ [RemoteCall.DeleteDataPool w.d.id])
          w.d.id (w.d.Timeout TimeoutKey.TimeoutDelete) = (none, calls) →
        resourceDataPoolDelete c w = some ({ d := w.d.SetId "", calls := calls }, []) := by
    intro h calls hw
    rw [resourceDataPoolDelete_after_call c w h, hw]
  refine ⟨herr, hwerr, hwok, ?_, ?_⟩
  · cases hdel : c.DeleteDataPool w.calls.length w.d.id with
    | error err =>
      refine ⟨_, herr err hdel, ?_, ?_⟩
      · simp [FromErr]
      · simp [FromErr]
    | ok u =>
      cases u
      cases hw : waitForDataPoolDeletion c (w.calls ++ [RemoteCall.DeleteDataPool w.d.id])
          w.d.id (w.d.Timeout TimeoutKey.TimeoutDelete) with
      | mk e calls =>
        cases e with
        | none =>
          refine ⟨_, hwok hdel calls hw, ?_, ?_⟩
          · simp
          · simp
        | some err =>
          refine ⟨_, hwerr hdel err calls hw, ?_, ?_⟩
          · simp [FromErr]
          · simp [FromErr]
  · intro hdel ht e hread hnf
    refine hwok hdel _ ?_
    unfold waitForDataPoolDeletion
    have hk : ((0 : Nat) : Int) * 10 ≤ durationSeconds (w.d.Timeout TimeoutKey.TimeoutDelete) := by
      have : 0 ≤ durationSeconds (w.d.Timeout TimeoutKey.TimeoutDelete) := by
        unfold durationSeconds Second
        exact Int.tdiv_nonneg ht (by decide)
      simpa using this
    rw [waitForDataPoolDeletionLoop_stops_at_error c w.d.id _
      (w.calls ++ [RemoteCall.DeleteDataPool w.d.id]) 0 e
      (by intro j hj; omega) hk
      (by simpa using hread)]
    simp [hnf]

/-- Worked example for C12, the scenario of the specification: the delete call
succeeds and the first read of the wait fails with "Data Pool dp_1 not found";
Delete returns no diagnostics and the id is cleared. -/
theorem resourceDataPoolDelete_clears_id_after_confirmation_witness :
    resourceDataPoolDelete
        (scriptedClient (poolReadsThenError 0 "Data Pool dp_1 not found") noSourceReads)
        { d := sampleData "dp_1" [] [], calls := [] } =
      some ({ d := sampleData "" [] [],
              calls := [RemoteCall.DeleteDataPool "dp_1", RemoteCall.DataPool "dp_1"] }, []) :=
  (resourceDataPoolDelete_clears_id_after_confirmation
    (scriptedClient (poolReadsThenError 0 "Data Pool dp_1 not found") noSourceReads)
    { d := sampleData "dp_1" [] [], calls := [] }).2.2.2.2
    rfl (by decide) "Data Pool dp_1 not found" rfl (by decide)


/-! ### Create of a Data Source -/

/-- C13: when the input of `resourceSnowflakeDataSourceCreate` can be built and
the remote create call returns the failure variant, Create returns exactly one
diagnostic, of severity Error and summary "Failed to create Data Source"; the
resource data is untouched (no id is set, no field written) and the create call
is the only remote call issued (no status poll, no Read). -/
theorem resourceSnowflakeDataSourceCreate_failure_response (sdk : Sdk) (c : Client)
    (w : World) (input : CreateSnowflakeDataSourceInput)
    (hinput : snowflakeCreateInput w.d = some input)
    (hcall : c.CreateSnowflakeDataSource w.calls.length input =
      .ok CreateSnowflakeDataSourceResponse.FailureResponse) :
    resourceSnowflakeDataSourceCreate sdk c w =
      some ({ d := w.d,
              calls := w.calls ++ [RemoteCall.CreateSnowflakeDataSource input] },
        [{ Severity := Severity.Error, Summary := "Failed to create Data Source",
           Detail := "" }]) := by
  simp only [resourceSnowflakeDataSourceCreate, hinput, Option.bind_eq_bind, Option.some_bind,
    hcall]

/-- Worked example for C13: the remote API answers the Snowflake create call with
the failure variant. -/
theorem resourceSnowflakeDataSourceCreate_failure_response_witness :
    resourceSnowflakeDataSourceCreate sampleSdk snowflakeFailureClient
        { d := snowflakeData, calls := [] } =
      some ({ d := snowflakeData,
              calls := [] ++ [RemoteCall.CreateSnowflakeDataSource snowflakeDataInput] },
        [{ Severity := Severity.Error, Summary := "Failed to create Data Source",
           Detail := "" }]) :=
  resourceSnowflakeDataSourceCreate_failure_response sampleSdk snowflakeFailureClient
    { d := snowflakeData, calls := [] } snowflakeDataInput rfl rfl


/-- The log that `waitForDataPoolLive` returns is the given log followed by reads
of the Data Pool only. -/
theorem waitForDataPoolLive_calls (sdk : Sdk) (c : Client) (calls : List RemoteCall)
    (id : String) (timeout : Int) :
    ∃ n, (waitForDataPoolLive sdk c calls id timeout).2 =
      calls ++ List.replicate n (RemoteCall.DataPool id) := by
  unfold waitForDataPoolLive
  rcases WaitForStateContext sdk (waitForDataPoolLiveConf timeout)
    (dataPoolRefresh c calls id) with ⟨_ | e, n⟩
  · exact ⟨n, rfl⟩
  · exact ⟨n, rfl⟩

/-- The log that `waitForDataSourceConnected` returns is the given log followed by
reads of the Data Source only. -/
theorem waitForDataSourceConnected_calls (sdk : Sdk) (c : Client) (calls : List RemoteCall)
    (id : String) (timeout : Int) :
    ∃ n, (waitForDataSourceConnected sdk c calls id timeout).2 =
      calls ++ List.replicate n (RemoteCall.DataSource id) := by
  unfold waitForDataSourceConnected
  rcases WaitForStateContext sdk (waitForDataSourceConnectedConf timeout)
    (dataSourceRefresh c calls id) with ⟨_ | e, n⟩
  · exact ⟨n, rfl⟩
  · exact ⟨n, rfl⟩

/-- When the first read of `waitForDataPoolLive` is issued before the deadline and
fails, the wait returns that error, wrapped twice, after this one read. -/
theorem waitForDataPoolLive_first_read_error (sdk : Sdk) (c : Client)
    (calls : List RemoteCall) (id : String) (timeout : Int) (e : String)
    (h0 : issuedBeforeDeadline (waitForDataPoolLiveConf timeout) 0)
    (hr : c.DataPool calls.length id = .error e) :
    waitForDataPoolLive sdk c calls id timeout =
      (some ("error waiting for Data Pool to be LIVE: " ++
          ("error trying to read Data Pool status: " ++ e)),
        calls ++ List.replicate 1 (RemoteCall.DataPool id)) := by
  have hrefresh : dataPoolRefresh c calls id 0 =
      .error ("error trying to read Data Pool status: " ++ e) := by
    unfold dataPoolRefresh
    rw [Nat.add_zero, hr]
  unfold waitForDataPoolLive WaitForStateContext
  rw [pollLoop_error sdk _ _ 0 0 "" _ h0 hrefresh]

/-- After a successful remote create call, a failed status wait ends the tail
shared by the Data Source create sub-paths: the error is returned, the id stays
set, and the log is the one of the wait. -/
theorem dataSourceCreated_failed_wait (sdk : Sdk) (c : Client) (w : World) (id err : String)
    (calls : List RemoteCall)
    (hwait : waitForDataSourceConnected sdk c w.calls id
      (w.d.Timeout TimeoutKey.TimeoutCreate) = (some err, calls)) :
    dataSourceCreated sdk c w id =
        some ({ d := w.d.SetId id, calls := calls }, FromErr err) ∧
      ∃ n, calls = w.calls ++ List.replicate n (RemoteCall.DataSource id) := by
  constructor
  · unfold dataSourceCreated
    simp only [ResourceData.SetId]
    rw [hwait]
  · obtain ⟨n, hn⟩ := waitForDataSourceConnected_calls sdk c w.calls id
      (w.d.Timeout TimeoutKey.TimeoutCreate)
    rw [hwait] at hn
    exact ⟨n, hn⟩

/-- C14: when the remote create call succeeds with id `X` and the status wait
returns an error, `resourceDataPoolCreate` and each of the three Data Source
create sub-paths return that error as their only diagnostic; the resource data
is the one before Create with the id set to `X` (no other field is written, so
the final Read did not run); and the call log is the create call followed by the
reads of the wait only, so no delete or other rollback call is issued. -/
theorem create_with_failed_poll (sdk : Sdk) (c : Client) (w : World) :
    (∀ input X err calls, dataPoolCreateInput w.d = some input →
      c.CreateDataPool w.calls.length input = .ok X →
      waitForDataPoolLive sdk c (w.calls ++ [RemoteCall.CreateDataPool input]) X
        (w.d.Timeout TimeoutKey.TimeoutCreate) = (some err, calls) →
      resourceDataPoolCreate sdk c w =
          some ({ d := w.d.SetId X, calls := calls }, FromErr err) ∧
        ∃ n, calls = w.calls ++ [RemoteCall.CreateDataPool input] ++
          List.replicate n (RemoteCall.DataPool X)) ∧
    (∀ input X err calls, snowflakeCreateInput w.d = some input →
      c.CreateSnowflakeDataSource w.calls.length input =
        .ok (CreateSnowflakeDataSourceResponse.DataSourceResponse X) →
      waitForDataSourceConnected sdk c
        (w.calls ++ [RemoteCall.CreateSnowflakeDataSource input]) X
        (w.d.Timeout TimeoutKey.TimeoutCreate) = (some err, calls) →
      resourceSnowflakeDataSourceCreate sdk c w =
          some ({ d := w.d.SetId X, calls := calls }, FromErr err) ∧
        ∃ n, calls = w.calls ++ [RemoteCall.CreateSnowflakeDataSource input] ++
          List.replicate n (RemoteCall.DataSource X)) ∧
    (∀ input X err calls, httpCreateInput w.d = some input →
      c.CreateHttpDataSource w.calls.length input = .ok X →
      waitForDataSourceConnected sdk c
        (w.calls ++ [RemoteCall.CreateHttpDataSource input]) X
        (w.d.Timeout TimeoutKey.TimeoutCreate) = (some err, calls) →
      resourceHttpDataSourceCreate sdk c w =
          some ({ d := w.d.SetId X, calls := calls }, FromErr err) ∧
        ∃ n, calls = w.calls ++ [RemoteCall.CreateHttpDataSource input] ++
          List.replicate n (RemoteCall.DataSource X)) ∧
    (∀ input X err calls, s3CreateInput w.d = some input →
      c.CreateS3DataSource w.calls.length input = .ok X →
      waitForDataSourceConnected sdk c
        (w.calls ++ [RemoteCall.CreateS3DataSource input]) X
        (w.d.Timeout TimeoutKey.TimeoutCreate) = (some err, calls) →
      resourceS3DataSourceCreate sdk c w =
          some ({ d := w.d.SetId X, calls := calls }, FromErr err) ∧
        ∃ n, calls = w.calls ++ [RemoteCall.CreateS3DataSource input] ++
          List.replicate n (RemoteCall.DataSource X)) := by
  refine ⟨?_, ?_, ?_, ?_⟩
  · intro input X err calls hin hcall hwait
    constructor
    · simp only [resourceDataPoolCreate, hin, Option.bind_eq_bind, Option.some_bind, hcall,
        ResourceData.SetId]
      rw [hwait]
    · obtain ⟨n, hn⟩ := waitForDataPoolLive_calls sdk c
        (w.calls ++ [RemoteCall.CreateDataPool input]) X (w.d.Timeout TimeoutKey.TimeoutCreate)
      rw [hwait] at hn
      exact ⟨n, hn⟩
  · intro input X err calls hin hcall hwait
    simp only [resourceSnowflakeDataSourceCreate, hin, Option.bind_eq_bind, Option.some_bind,
      hcall]
    exact dataSourceCreated_failed_wait sdk c
      { d := w.d, calls := w.calls ++ [RemoteCall.CreateSnowflakeDataSource input] }
      X err calls hwait
  · intro input X err calls hin hcall hwait
    simp only [resourceHttpDataSourceCreate, hin, Option.bind_eq_bind, Option.some_bind,
      hcall]
    exact dataSourceCreated_failed_wait sdk c
      { d := w.d, calls := w.calls ++ [RemoteCall.CreateHttpDataSource input] }
      X err calls hwait
  · intro input X err calls hin hcall hwait
    simp only [resourceS3DataSourceCreate, hin, Option.bind_eq_bind, Option.some_bind,
      hcall]
    exact dataSourceCreated_failed_wait sdk c
      { d := w.d, calls := w.calls ++ [RemoteCall.CreateS3DataSource input] }
      X err calls hwait

/-- Worked example for C14: the Data Pool is created as `dp_1`, the first read of
the status wait fails with "boom"; Create returns the wrapped error, the id is
`dp_1`, and the log holds the create call and that one read. -/
theorem create_with_failed_poll_witness :
    resourceDataPoolCreate sampleSdk
        (scriptedClient (poolReadsThenError 0 "boom") noSourceReads)
        { d := poolDesiredData, calls := [] } =
      some ({ d := poolDesiredData.SetId "dp_1",
              calls := [RemoteCall.CreateDataPool poolDesiredInput,
                RemoteCall.DataPool "dp_1"] },
        FromErr ("error waiting for Data Pool to be LIVE: " ++
          ("error trying to read Data Pool status: " ++ "boom"))) :=
  ((create_with_failed_poll sampleSdk
    (scriptedClient (poolReadsThenError 0 "boom") noSourceReads)
    { d := poolDesiredData, calls := [] }).1 poolDesiredInput "dp_1" _ _ rfl rfl
    (waitForDataPoolLive_first_read_error sampleSdk
      (scriptedClient (poolReadsThenError 0 "boom") noSourceReads)
      [RemoteCall.CreateDataPool poolDesiredInput] "dp_1" (20 * Minute) "boom"
      (by decide) rfl)).1


/-! ### Tables of a Data Source on Read -/

/-- The value built from the table nodes is a list with one entry per node, in
the order of the nodes; the entry of a node carries the node's name and a list
with one record per column node, in the order of the column nodes. -/
theorem flattenTables_entries (nodes : List TableNode) :
    ∃ entries, flattenTables nodes = Value.list entries ∧
      entries.length = nodes.length ∧
      ∀ (i : Nat) (table : TableNode), nodes.get? i = some table →
        ∃ columns, entries.get? i =
            some (Value.map [("name", Value.str table.Name), ("column", Value.list columns)]) ∧
          columns.length = table.Columns.length ∧
          ∀ (j : Nat) (column : ColumnNode), table.Columns.get? j = some column →
            columns.get? j =
              some (Value.map [("name", Value.str column.Name),
                ("type", Value.str column.Type_),
                ("nullable", Value.bool column.IsNullable)]) := by
  refine ⟨_, rfl, by simp, ?_⟩
  intro i table hi
  refine ⟨table.Columns.map fun column =>
    Value.map [("name", Value.str column.Name), ("type", Value.str column.Type_),
      ("nullable", Value.bool column.IsNullable)], ?_, by simp, ?_⟩
  · rw [List.get?_eq_getElem?] at hi
    rw [List.get?_eq_getElem?, List.getElem?_map, hi]
    rfl
  · intro j column hj
    rw [List.get?_eq_getElem?] at hj
    rw [List.get?_eq_getElem?, List.getElem?_map, hj]
    rfl

/-- C16: for a response whose Tables collection is present, `handleHttpTables`
and `handleS3Tables` call `d.Set` for the key "table" with a list that has exactly
one entry per table node, in the same order, each entry carrying the node's name
and a "column" list with exactly one {name, type, nullable} record per column
node, in the same order; the handler returns the error of that `d.Set` as its
diagnostics, and none when `d.Set` succeeds.  For a response whose Tables
collection is nil they return no diagnostics and leave the resource data as it
was, without calling `d.Set`.  The two handlers return the same result on the same
response and state.  The statement is about the value handed to `d.Set`; how the
SDK stores it and reads it back is not part of it. -/
theorem table_flattening_on_read (sdk : Sdk) (response : DataSourceResponse) (w : World) :
    (∀ nodes, response.Tables = some nodes →
      handleHttpTables sdk response w =
        (match w.d.Set sdk "table" (flattenTables nodes) with
        | .error err => (w, FromErr err)
        | .ok d => ({ w with d := d }, [])) ∧
      ∃ entries, flattenTables nodes = Value.list entries ∧
        entries.length = nodes.length ∧
        ∀ (i : Nat) (table : TableNode), nodes.get? i = some table →
          ∃ columns, entries.get? i =
              some (Value.map [("name", Value.str table.Name),
                ("column", Value.list columns)]) ∧
            columns.length = table.Columns.length ∧
            ∀ (j : Nat) (column : ColumnNode), table.Columns.get? j = some column →
              columns.get? j =
                some (Value.map [("name", Value.str column.Name),
                  ("type", Value.str column.Type_),
                  ("nullable", Value.bool column.IsNullable)])) ∧
    (response.Tables = none → handleHttpTables sdk response w = (w, [])) ∧
    handleS3Tables sdk response w = handleHttpTables sdk response w := by
  refine ⟨?_, ?_, rfl⟩
  · intro nodes hn
    refine ⟨?_, flattenTables_entries nodes⟩
    simp only [handleHttpTables, hn]
  · intro hn
    simp only [handleHttpTables, hn]

/-- Worked example for C16: for one table `events` with the columns `id` and `at`,
`handleS3Tables` hands `d.Set` one entry with two column records, in the order of
the response; and without a Tables collection it does nothing. -/
theorem table_flattening_on_read_witness :
    handleS3Tables sampleSdk
        (sampleSource "S3" "CONNECTED" (ConnectionSettings.s3 "b" "k") (some sampleTables))
        { d := s3LocalData, calls := [] } =
      (match s3LocalData.Set sampleSdk "table"
          (Value.list [Value.map [("name", Value.str "events"),
            ("column", Value.list [
              Value.map [("name", Value.str "id"), ("type", Value.str "INT64"),
                ("nullable", Value.bool false)],
              Value.map [("name", Value.str "at"), ("type", Value.str "TIMESTAMP"),
                ("nullable", Value.bool true)]])]]) with
      | .error err => ({ d := s3LocalData, calls := [] }, FromErr err)
      | .ok d => ({ d := d, calls := [] }, [])) ∧
    handleHttpTables sampleSdk
        (sampleSource "Http" "CONNECTED" (ConnectionSettings.http none) none)
        { d := s3LocalData, calls := [] } =
      ({ d := s3LocalData, calls := [] }, []) :=
  ⟨(table_flattening_on_read sampleSdk
      (sampleSource "S3" "CONNECTED" (ConnectionSettings.s3 "b" "k") (some sampleTables))
      { d := s3LocalData, calls := [] }).2.2.trans
    ((table_flattening_on_read sampleSdk
      (sampleSource "S3" "CONNECTED" (ConnectionSettings.s3 "b" "k") (some sampleTables))
      { d := s3LocalData, calls := [] }).1 sampleTables rfl).1,
   (table_flattening_on_read sampleSdk
      (sampleSource "Http" "CONNECTED" (ConnectionSettings.http none) none)
      { d := s3LocalData, calls := [] }).2.1 rfl⟩


/-! ### Number of reads of the deletion wait -/

/-- From any counter `n` the loop adds only reads of the Data Pool to the log; if
the deadline check does not fire at `n`, the counter plus the number of added
reads stays within one tick of the deadline; if it fires, no read is added and
the result is nil. -/
theorem waitForDataPoolDeletionLoop_count (c : Client) (id : String) (T : Int) :
    ∀ (n : Nat) (calls : List RemoteCall),
      ∃ m, (waitForDataPoolDeletionLoop c id T n calls).2 =
          calls ++ List.replicate m (RemoteCall.DataPool id) ∧
        ((n : Int) * 10 ≤ T → ((n + m : Nat) : Int) * 10 ≤ T + 10) ∧
        ((n : Int) * 10 > T →
          m = 0 ∧ (waitForDataPoolDeletionLoop c id T n calls).1 = none) := by
  intro n calls
  induction n, calls using waitForDataPoolDeletionLoop.induct c id T with
  | case1 n calls h =>
    rw [waitForDataPoolDeletionLoop, if_pos h]
    exact ⟨0, by simp, by intro h'; omega, fun _ => ⟨rfl, rfl⟩⟩
  | case2 n calls h err hr hnf =>
    rw [waitForDataPoolDeletionLoop, if_neg h]
    simp only [hr, hnf, if_true]
    exact ⟨1, rfl, by intro _; push_cast; omega, by intro h'; exact absurd h' h⟩
  | case3 n calls h err hr hnf =>
    rw [waitForDataPoolDeletionLoop, if_neg h]
    simp only [hr, hnf]
    exact ⟨1, rfl, by intro _; push_cast; omega, by intro h'; exact absurd h' h⟩
  | case4 n calls h r hr ih =>
    rw [waitForDataPoolDeletionLoop, if_neg h]
    simp only [hr]
    obtain ⟨m, hm, hle, hgt⟩ := ih
    refine ⟨m + 1, ?_, ?_, by intro h'; exact absurd h' h⟩
    · rw [hm, List.append_assoc]
      rfl
    · intro _
      by_cases hn : ((n + 1 : Nat) : Int) * 10 ≤ T
      · have := hle hn
        have e : n + (m + 1) = n + 1 + m := by omega
        rw [e]
        exact this
      · have hm0 := (hgt (by omega)).1
        subst hm0
        push_cast at hn ⊢
        omega

/-- C17: let `T` be the value of `timeoutSeconds`, whatever the conversion
`int(timeout.Seconds())` yields.  With the 10-second interval the loop of
`waitForDataPoolDeletion` always returns, and the calls it adds to the log are
`m` reads of the Data Pool, where `m ≤ T / 10 + 1` when `T ≥ 0`; `m = 0` and the
result is nil when `T < 0`; and `m = T / 10 + 1` exactly when `T ≥ 0` and every
read issued before the deadline succeeds.  For every timeout shorter than `2^24`
seconds, whose whole seconds are `T`, `waitForDataPoolDeletion` is that loop. -/
theorem waitForDataPoolDeletion_read_count (c : Client) (calls : List RemoteCall)
    (id : String) (T : Int) :
    ∃ m : Nat, (waitForDataPoolDeletionLoop c id T 0 calls).2 =
        calls ++ List.replicate m (RemoteCall.DataPool id) ∧
      (0 ≤ T → (m : Int) ≤ T / 10 + 1) ∧
      (T < 0 → m = 0 ∧ (waitForDataPoolDeletionLoop c id T 0 calls).1 = none) ∧
      (0 ≤ T →
        (∀ k : Nat, (k : Int) * 10 ≤ T → ∃ r, c.DataPool (calls.length + k) id = .ok r) →
        (m : Int) = T / 10 + 1) ∧
      (∀ timeout, shortTimeout timeout → durationSeconds timeout = T →
        waitForDataPoolDeletion c calls id timeout =
          waitForDataPoolDeletionLoop c id T 0 calls) := by
  obtain ⟨m, hm, hle, hgt⟩ := waitForDataPoolDeletionLoop_count c id T 0 calls
  refine ⟨m, hm, ?_, ?_, ?_, ?_⟩
  · intro hT
    have := hle (by simpa using hT)
    simp only [Nat.zero_add] at this
    omega
  · intro hT
    exact hgt (by simpa using hT)
  · intro hT hreads
    have hcast : (((T / 10).toNat : Nat) : Int) = T / 10 := Int.toNat_of_nonneg (by omega)
    have hstop := waitForDataPoolDeletionLoop_stops_at_deadline c id T
      calls ((T / 10).toNat + 1)
      (by push_cast; omega)
      (by intro j hj
          have : (j : Int) ≤ T / 10 := by omega
          omega)
      (by intro j hj
          refine hreads j ?_
          have : (j : Int) ≤ T / 10 := by omega
          omega)
    rw [hstop] at hm
    have hlen := congrArg List.length hm
    simp only [List.length_append, List.length_replicate] at hlen
    have : m = (T / 10).toNat + 1 := by omega
    rw [this]
    push_cast
    omega
  · intro timeout _ hT
    unfold waitForDataPoolDeletion
    rw [hT]

/-- Worked example for C17: a timeout of 25 seconds and reads that all succeed:
the wait issues exactly three reads. -/
theorem waitForDataPoolDeletion_read_count_witness :
    (waitForDataPoolDeletion
        (scriptedClient (fun _ => .ok (samplePool "LIVE")) noSourceReads)
        [] "dp_1" (25 * Second)).2 =
      [RemoteCall.DataPool "dp_1", RemoteCall.DataPool "dp_1",
        RemoteCall.DataPool "dp_1"] := by
  obtain ⟨m, hm, _, _, hexact, hwait⟩ := waitForDataPoolDeletion_read_count
    (scriptedClient (fun _ => .ok (samplePool "LIVE")) noSourceReads) [] "dp_1" 25
  have hm3 : (m : Int) = 25 / 10 + 1 := hexact (by decide) (fun _ _ => ⟨_, rfl⟩)
  have hm3' : m = 3 := by omega
  subst hm3'
  rw [hwait (25 * Second) ⟨by decide, by decide⟩ (by decide), hm]
  rfl

/-! ### Diagnostics of the final Read of Create -/

/-- A `d.Set` step returns if the rest of the function does. -/
theorem setOrReturn_returns (sdk : Sdk) (w : World) (key : String) (value : Value)
    (k : World → Option (World × Diagnostics)) (hk : ∀ w1, ∃ r, k w1 = some r) :
    ∃ r, setOrReturn sdk w key value k = some r := by
  unfold setOrReturn
  split
  · exact ⟨_, rfl⟩
  · exact hk _

/-- Function `resourceDataPoolRead` always returns: it has no type assertion that
could fail. -/
theorem resourceDataPoolRead_returns (sdk : Sdk) (c : Client) (w : World) :
    ∃ r, resourceDataPoolRead sdk c w = some r := by
  unfold resourceDataPoolRead
  simp only
  split
  · exact ⟨_, rfl⟩
  · refine setOrReturn_returns sdk _ _ _ _ fun w1 => ?_
    refine setOrReturn_returns sdk _ _ _ _ fun w2 => ?_
    refine setOrReturn_returns sdk _ _ _ _ fun w3 => ?_
    refine setOrReturn_returns sdk _ _ _ _ fun w4 => ?_
    refine setOrReturn_returns sdk _ _ _ _ fun w5 => ?_
    refine setOrReturn_returns sdk _ _ _ _ fun w6 => ?_
    refine setOrReturn_returns sdk _ _ _ _ fun w7 => ?_
    refine setOrReturn_returns sdk _ _ _ _ fun w8 => ?_
    exact ⟨_, rfl⟩

/-- After a successful create call and a successful status wait,
`resourceDataPoolCreate` is the final Read with its diagnostics replaced by the
empty list. -/
theorem resourceDataPoolCreate_after_wait (sdk : Sdk) (c : Client) (w : World)
    (input : CreateDataPoolInputV2) (X : String) (calls : List RemoteCall)
    (hin : dataPoolCreateInput w.d = some input)
    (hcall : c.CreateDataPool w.calls.length input = .ok X)
    (hwait : waitForDataPoolLive sdk c (w.calls ++ [RemoteCall.CreateDataPool input]) X
      (w.d.Timeout TimeoutKey.TimeoutCreate) = (none, calls)) :
    resourceDataPoolCreate sdk c w =
      (resourceDataPoolRead sdk c { d := w.d.SetId X, calls := calls }).map
        fun r => (r.1, []) := by
  simp only [resourceDataPoolCreate, hin, Option.bind_eq_bind, Option.some_bind, hcall,
    ResourceData.SetId]
  rw [hwait]
  simp only
  cases resourceDataPoolRead sdk c
    { d := { id := X, attrs := w.d.attrs, changed := w.d.changed, Timeout := w.d.Timeout },
      calls := calls } <;> rfl

/-- After a successful create call and a successful status wait, the tail shared
by the Data Source create sub-paths is the final Read. -/
theorem dataSourceCreated_after_wait (sdk : Sdk) (c : Client) (w : World) (id : String)
    (calls : List RemoteCall)
    (hwait : waitForDataSourceConnected sdk c w.calls id
      (w.d.Timeout TimeoutKey.TimeoutCreate) = (none, calls)) :
    dataSourceCreated sdk c w id =
      resourceDataSourceRead sdk c { d := w.d.SetId id, calls := calls } := by
  unfold dataSourceCreated
  simp only [ResourceData.SetId]
  rw [hwait]

/-- When three reads in a row, the last issued before the deadline, return LIVE,
`waitForDataPoolLive` returns nil after these three reads. -/
theorem waitForDataPoolLive_three_live (sdk : Sdk) (c : Client) (calls : List RemoteCall)
    (id : String) (timeout : Int)
    (h2 : issuedBeforeDeadline (waitForDataPoolLiveConf timeout) 2)
    (hr : ∀ k, k < 3 → ∃ r, c.DataPool (calls.length + k) id = .ok r ∧
      r.Status = DataPoolStatusLive) :
    waitForDataPoolLive sdk c calls id timeout =
      (none, calls ++ List.replicate 3 (RemoteCall.DataPool id)) := by
  have hrefresh : ∀ k, k < 3 → dataPoolRefresh c calls id k = .ok DataPoolStatusLive := by
    intro k hk
    obtain ⟨r, hr1, hr2⟩ := hr k hk
    unfold dataPoolRefresh
    rw [hr1, ← hr2]
  have ht : DataPoolStatusLive ∈ (waitForDataPoolLiveConf timeout).Target := by
    simp [waitForDataPoolLiveConf]
  have h0 := issuedBeforeDeadline_mono (waitForDataPoolLiveConf timeout) (by omega : 0 ≤ 2) h2
  have h1 := issuedBeforeDeadline_mono (waitForDataPoolLiveConf timeout) (by omega : 1 ≤ 2) h2
  unfold waitForDataPoolLive WaitForStateContext
  rw [pollLoop_target sdk _ _ 0 0 "" _ h0 (hrefresh 0 (by omega)) ht
      (by simp [waitForDataPoolLiveConf]),
    pollLoop_target sdk _ _ 1 1 _ _ h1 (hrefresh 1 (by omega)) ht
      (by simp [waitForDataPoolLiveConf]),
    pollLoop_done sdk _ _ 2 2 _ _ h2 (hrefresh 2 (by omega)) ht
      (by simp [waitForDataPoolLiveConf])]

/-- C18: when the remote create call and the status wait both succeed,
`resourceDataPoolCreate` runs the final `resourceDataPoolRead` and returns an
empty diagnostics list whatever that Read returned, in particular when the
remote read fails and when `d.Set` rejects a field; each of the three Data
Source create sub-paths returns exactly what its final `resourceDataSourceRead`
returns. -/
theorem create_final_read_diagnostics (sdk : Sdk) (c : Client) (w : World) :
    (∀ input X calls, dataPoolCreateInput w.d = some input →
      c.CreateDataPool w.calls.length input = .ok X →
      waitForDataPoolLive sdk c (w.calls ++ [RemoteCall.CreateDataPool input]) X
        (w.d.Timeout TimeoutKey.TimeoutCreate) = (none, calls) →
      (∃ w3 diags,
        resourceDataPoolRead sdk c { d := w.d.SetId X, calls := calls } = some (w3, diags) ∧
        resourceDataPoolCreate sdk c w = some (w3, [])) ∧
      (∀ err, c.DataPool calls.length X = .error err →
        resourceDataPoolRead sdk c { d := w.d.SetId X, calls := calls } =
          some ({ d := w.d.SetId X, calls := calls ++ [RemoteCall.DataPool X] },
            FromErr err) ∧
        resourceDataPoolCreate sdk c w =
          some ({ d := w.d.SetId X, calls := calls ++ [RemoteCall.DataPool X] }, [])) ∧
      (∀ response err, c.DataPool calls.length X = .ok response →
        sdk.setError "unique_name" (Value.str response.UniqueName) = some err →
        resourceDataPoolRead sdk c { d := w.d.SetId X, calls := calls } =
          some ({ d := (w.d.SetId X).SetId response.Id,
                  calls := calls ++ [RemoteCall.DataPool X] }, FromErr err) ∧
        resourceDataPoolCreate sdk c w =
          some ({ d := (w.d.SetId X).SetId response.Id,
                  calls := calls ++ [RemoteCall.DataPool X] }, []))) ∧
    (∀ input X calls, snowflakeCreateInput w.d = some input →
      c.CreateSnowflakeDataSource w.calls.length input =
        .ok (CreateSnowflakeDataSourceResponse.DataSourceResponse X) →
      waitForDataSourceConnected sdk c
        (w.calls ++ [RemoteCall.CreateSnowflakeDataSource input]) X
        (w.d.Timeout TimeoutKey.TimeoutCreate) = (none, calls) →
      resourceSnowflakeDataSourceCreate sdk c w =
        resourceDataSourceRead sdk c { d := w.d.SetId X, calls := calls }) ∧
    (∀ input X calls, httpCreateInput w.d = some input →
      c.CreateHttpDataSource w.calls.length input = .ok X →
      waitForDataSourceConnected sdk c
        (w.calls ++ [RemoteCall.CreateHttpDataSource input]) X
        (w.d.Timeout TimeoutKey.TimeoutCreate) = (none, calls) →
      resourceHttpDataSourceCreate sdk c w =
        resourceDataSourceRead sdk c { d := w.d.SetId X, calls := calls }) ∧
    (∀ input X calls, s3CreateInput w.d = some input →
      c.CreateS3DataSource w.calls.length input = .ok X →
      waitForDataSourceConnected sdk c
        (w.calls ++ [RemoteCall.CreateS3DataSource input]) X
        (w.d.Timeout TimeoutKey.TimeoutCreate) = (none, calls) →
      resourceS3DataSourceCreate sdk c w =
        resourceDataSourceRead sdk c { d := w.d.SetId X, calls := calls }) := by
  refine ⟨?_, ?_, ?_, ?_⟩
  · intro input X calls hin hcall hwait
    have hcreate := resourceDataPoolCreate_after_wait sdk c w input X calls hin hcall hwait
    refine ⟨?_, ?_, ?_⟩
    · obtain ⟨r, hr⟩ := resourceDataPoolRead_returns sdk c { d := w.d.SetId X, calls := calls }
      refine ⟨r.1, r.2, by rw [hr], ?_⟩
      rw [hcreate, hr]
      rfl
    · intro err hread
      have hr : resourceDataPoolRead sdk c { d := w.d.SetId X, calls := calls } =
          some ({ d := w.d.SetId X, calls := calls ++ [RemoteCall.DataPool X] },
            FromErr err) := by
        simp only [resourceDataPoolRead, ResourceData.SetId, hread]
      refine ⟨hr, ?_⟩
      rw [hcreate, hr]
      rfl
    · intro response err hread hset
      have hr : resourceDataPoolRead sdk c { d := w.d.SetId X, calls := calls } =
          some ({ d := (w.d.SetId X).SetId response.Id,
                  calls := calls ++ [RemoteCall.DataPool X] }, FromErr err) := by
        simp only [resourceDataPoolRead, ResourceData.SetId, hread, setOrReturn,
          ResourceData.Set, hset]
      refine ⟨hr, ?_⟩
      rw [hcreate, hr]
      rfl
  · intro input X calls hin hcall hwait
    simp only [resourceSnowflakeDataSourceCreate, hin, Option.bind_eq_bind, Option.some_bind,
      hcall]
    exact dataSourceCreated_after_wait sdk c
      { d := w.d, calls := w.calls ++ [RemoteCall.CreateSnowflakeDataSource input] }
      X calls hwait
  · intro input X calls hin hcall hwait
    simp only [resourceHttpDataSourceCreate, hin, Option.bind_eq_bind, Option.some_bind,
      hcall]
    exact dataSourceCreated_after_wait sdk c
      { d := w.d, calls := w.calls ++ [RemoteCall.CreateHttpDataSource input] }
      X calls hwait
  · intro input X calls hin hcall hwait
    simp only [resourceS3DataSourceCreate, hin, Option.bind_eq_bind, Option.some_bind,
      hcall]
    exact dataSourceCreated_after_wait sdk c
      { d := w.d, calls := w.calls ++ [RemoteCall.CreateS3DataSource input] }
      X calls hwait

/-- Worked example for C18: the Data Pool is created as `dp_1`, three reads
return LIVE, and the read of the final Read fails with "boom"; Create returns no
diagnostics. -/
theorem create_final_read_diagnostics_witness :
    resourceDataPoolCreate sampleSdk
        (scriptedClient (poolReadsThenError 4 "boom") noSourceReads)
        { d := poolDesiredData, calls := [] } =
      some ({ d := poolDesiredData.SetId "dp_1",
              calls := [RemoteCall.CreateDataPool poolDesiredInput] ++
                List.replicate 3 (RemoteCall.DataPool "dp_1") ++
                [RemoteCall.DataPool "dp_1"] }, []) :=
  (((create_final_read_diagnostics sampleSdk
    (scriptedClient (poolReadsThenError 4 "boom") noSourceReads)
    { d := poolDesiredData, calls := [] }).1 poolDesiredInput "dp_1" _ rfl rfl
    (waitForDataPoolLive_three_live sampleSdk
      (scriptedClient (poolReadsThenError 4 "boom") noSourceReads)
      [RemoteCall.CreateDataPool poolDesiredInput] "dp_1" (20 * Minute)
      (by decide)
      (by intro k hk; interval_cases k <;> exact ⟨_, rfl, rfl⟩))).2.1 "boom" rfl).2

end Propel
